import Mathlib

/-!
# Verification of the FROS adaptive flight-replanning core

Shallow embedding of the repository's Python sources:
* `backend/models/route.py`        — the `Route` data model and its cost model
* `backend/services/optimization/ppo_rerouter.py` — candidate evaluator and path splicer
* `backend/realtime/route_adjuster.py` — route registry and blocked-waypoint handler

Modelling conventions:
* Python floats are modelled as `ℚ`; UUIDs as `Nat` (fresh ids are drawn from an
  explicit `seed : Nat` parameter standing for `uuid4()`).
* Trigonometry and geodesic distance come from external libraries (`math`,
  `geopy`); they are abstracted into a `Geo` oracle of rational-valued
  functions, so every definition stays executable.
* Python dictionaries are association lists in insertion order; `dict.get`
  with a default becomes `wget`.
* Python code that can raise (`ZeroDivisionError` on `x / 0`, attribute access
  on `None`, out-of-range indexing) is modelled with `Except String`.
* `datetime` fields are omitted: no claim observes them.
-/

/-- Python float division: raises `ZeroDivisionError` when the divisor is zero. -/
def pydiv (a b : ℚ) : Except String ℚ :=
  if b = 0 then .error "ZeroDivisionError: float division by zero" else .ok (a / b)

/-- Python `%` on floats: result has the sign of the divisor (`a - b*floor(a/b)`). -/
def pymod (a b : ℚ) : ℚ :=
  a - b * (⌊a / b⌋ : ℚ)

/-- Modelled from the spec: `WaypointStatus` enum of `models/waypoint.py`
(§3 of the design: `{PENDING, ACTIVE, PASSED, BLOCKED}`). -/
inductive WaypointStatus where
  | pending
  | active
  | passed
  | blocked
deriving DecidableEq, Repr

/-- Modelled from the spec: the `Waypoint` point type of `models/waypoint.py`
(§3: identifier, display name, latitude, longitude, sequence `order`,
lifecycle state). -/
structure Waypoint where
  id : Nat
  name : String
  latitude : ℚ
  longitude : ℚ
  order : Nat
  status : WaypointStatus
deriving DecidableEq, Repr

/-- Modelled from the spec: the `Airport` point type of `models/airport.py`
(§3: identifier/IATA code, display name, city/country codes, coordinates). -/
structure Airport where
  iata_code : String
  name : String
  city : String
  country : String
  latitude : ℚ
  longitude : ℚ
deriving DecidableEq, Repr

/-- Modelled from the spec: the `Aircraft` context of `models/aircraft.py`
(§3: cruise speed km/h, fuel-burn rate kg/h, fuel capacity). -/
structure Aircraft where
  cruise_speed_kmh : ℚ
  fuel_consumption_rate_kg_hr : ℚ
  fuel_capacity_liters : ℚ
deriving DecidableEq, Repr

/-- A weather sample: a Python dict from field name to numeric value. -/
def WeatherSample : Type := List (String × ℚ)

instance : DecidableEq WeatherSample := by
  unfold WeatherSample; infer_instance

/-- `weather.get(key, default)` on a weather-sample dict. -/
def wget (w : WeatherSample) (k : String) (d : ℚ) : ℚ :=
  ((List.lookup k w).getD d)

/-- `key in weather` membership test on a weather-sample dict. -/
def whas (w : WeatherSample) (k : String) : Bool :=
  (List.lookup k w).isSome

/-- The route-level weather mapping `Route.weather_data` / the `weather_data`
argument of `calculate_fuel_consumption`: dict from per-point key to sample,
in insertion order. -/
def WeatherMap : Type := List (String × WeatherSample)

instance : DecidableEq WeatherMap := by
  unfold WeatherMap; infer_instance

/-- Oracle for the external math/geodesy library functions used by the source
(`math.cos`/`sin`/`atan2` via degrees, `calculate_distance`,
`calculate_bearing` of `models/waypoint.py`/`models/airport.py`, and
`geopy.distance.geodesic`). Abstracting them keeps the embedding executable;
theorems state the boundedness facts they need about the oracle explicitly. -/
structure Geo where
  /-- great-circle distance in km between `(lat1, lon1)` and `(lat2, lon2)` -/
  dist : ℚ → ℚ → ℚ → ℚ → ℚ
  /-- initial bearing in degrees from `(lat1, lon1)` to `(lat2, lon2)` -/
  bearing : ℚ → ℚ → ℚ → ℚ → ℚ
  /-- `math.cos(math.radians x)` for an angle `x` in degrees -/
  cosDeg : ℚ → ℚ
  /-- `math.sin(math.radians x)` for an angle `x` in degrees -/
  sinDeg : ℚ → ℚ
  /-- `math.degrees (math.atan2 y x)` -/
  atan2Deg : ℚ → ℚ → ℚ

/-- The `Route` model of `backend/models/route.py` (constructor defaults of
`Route.__init__`: empty waypoint list, empty weather dict, empty leg arrays,
`estimated_time = 0`; the `reroute_history` attribute does not exist until
assigned, hence `Option`). -/
structure Route where
  id : Nat
  name : String
  origin : Option Airport
  destination : Option Airport
  waypoints : List Waypoint
  path_type : String
  optimization_method : String
  distance : ℚ
  fitness_score : ℚ
  fuel_consumption : ℚ
  /-- `estimated_time`: `none` models Python `None`, `some 0` the default `0`. -/
  estimated_time : Option ℚ
  leg_distances : List ℚ
  leg_times : List ℚ
  weather_data : WeatherMap
  reroute_history : Option (List (String × String))
deriving DecidableEq

/-- Python truthiness of the `estimated_time` field (`None` and `0` are falsy). -/
def estTruthy : Option ℚ → Bool
  | none => false
  | some q => q != 0

/-- `Route.get_current_waypoint` (route.py lines 50-58): first waypoint whose
status is ACTIVE, else `None`. The `current_time` argument is bound but never
used by the body. -/
def get_current_waypoint (r : Route) (current_time : Option ℚ) : Option Waypoint :=
  let _ := current_time
  (r.waypoints.filter (fun wp => wp.status = WaypointStatus.active)).head?

instance : Inhabited Waypoint :=
  ⟨⟨0, "", 0, 0, 0, WaypointStatus.pending⟩⟩

/-- `Route.average_bearing` property (route.py lines 506-531): mean of the
consecutive-waypoint bearings, each normalized by `(bearing + 360) % 360`;
`0` when fewer than two waypoints. -/
def average_bearing (geo : Geo) (r : Route) : ℚ :=
  if r.waypoints.length < 2 then 0
  else
    let bearings := (List.range (r.waypoints.length - 1)).map (fun i =>
      let wp1 := (r.waypoints.get? i).getD default
      let wp2 := (r.waypoints.get? (i + 1)).getD default
      pymod (geo.bearing wp1.latitude wp1.longitude wp2.latitude wp2.longitude + 360) 360)
    bearings.sum / (bearings.length : ℚ)

/-- `Route.calculate_total_distance` (route.py lines 217-236): build the leg
list (origin→first waypoint, consecutive waypoint pairs, last
waypoint→destination — each segment only when its endpoints exist and the
waypoint list is non-empty), store it with its sum, and return the sum. -/
def calculate_total_distance (geo : Geo) (r : Route) : Route × ℚ :=
  let d := fun (la1 lo1 la2 lo2 : ℚ) => geo.dist la1 lo1 la2 lo2
  let legs1 : List ℚ :=
    match r.origin, r.waypoints.head? with
    | some o, some w0 => [d o.latitude o.longitude w0.latitude w0.longitude]
    | _, _ => []
  let legs2 : List ℚ := (List.range (r.waypoints.length - 1)).map (fun i =>
    let a := (r.waypoints.get? i).getD default
    let b := (r.waypoints.get? (i + 1)).getD default
    d a.latitude a.longitude b.latitude b.longitude)
  let legs3 : List ℚ :=
    match r.destination, r.waypoints.getLast? with
    | some de, some wl => [d wl.latitude wl.longitude de.latitude de.longitude]
    | _, _ => []
  let leg_distances := legs1 ++ legs2 ++ legs3
  let total := leg_distances.sum
  ({ r with leg_distances := leg_distances, distance := total }, total)

/-- `l[-1] += x`-style update of the last element of a list. -/
def modifyLast (f : α → α) (l : List α) : List α :=
  (l.reverse.modifyHead f).reverse

/-- `Route.calculate_leg_times` (route.py lines 108-151): empty array (and an
emptied `leg_times` field) when the aircraft or its speed attribute is
unavailable; otherwise per-leg time `distance / cruise_speed` (zero when the
cruise speed is non-positive), with the fixed 0.5 h takeoff/landing allowance
split between the first and last leg. Stores both leg arrays. -/
def calculate_leg_times (geo : Geo) (aircraft? : Option Aircraft) (r : Route) :
    Route × List ℚ :=
  match aircraft? with
  | none => ({ r with leg_times := [] }, [])
  | some ac =>
    let segs : List ((ℚ × ℚ) × (ℚ × ℚ)) :=
      (match r.origin, r.waypoints.head? with
       | some o, some w0 => [((o.latitude, o.longitude), (w0.latitude, w0.longitude))]
       | _, _ => []) ++
      ((List.range (r.waypoints.length - 1)).map (fun i =>
        let a := (r.waypoints.get? i).getD default
        let b := (r.waypoints.get? (i + 1)).getD default
        ((a.latitude, a.longitude), (b.latitude, b.longitude)))) ++
      (match r.destination, r.waypoints.getLast? with
       | some de, some wl => [((wl.latitude, wl.longitude), (de.latitude, de.longitude))]
       | _, _ => [])
    let leg_distances := segs.map (fun s => geo.dist s.1.1 s.1.2 s.2.1 s.2.2)
    let leg_times := segs.map (fun s =>
      let d := geo.dist s.1.1 s.1.2 s.2.1 s.2.2
      if ac.cruise_speed_kmh > 0 then d / ac.cruise_speed_kmh else 0)
    let leg_times := modifyLast (· + 0.25) (leg_times.modifyHead (· + 0.25))
    ({ r with leg_distances := leg_distances, leg_times := leg_times }, leg_times)

/-- `Route.calculate_estimated_time` (route.py lines 60-106): `None` when the
aircraft is absent or the stored distance is falsy; otherwise
`distance / cruise_speed + 0.5`, wind-adjusted through the average bearing
when weather samples carry wind fields. Raises (`ZeroDivisionError`) when the
cruise speed is zero, since only the distance is guarded. Stores the result. -/
def calculate_estimated_time (geo : Geo) (aircraft? : Option Aircraft) (r : Route) :
    Except String (Route × Option ℚ) :=
  match aircraft? with
  | none => .ok (r, none)
  | some ac =>
    if r.distance = 0 then .ok (r, none)
    else
      match pydiv r.distance ac.cruise_speed_kmh with
      | .error e => .error e
      | .ok base_time_hours =>
        let total_time_hours := base_time_hours + 0.5
        let total_time_hours :=
          if r.weather_data.isEmpty then total_time_hours
          else
            let ab := average_bearing geo r
            let step := fun (acc : ℚ × Nat) (kv : String × WeatherSample) =>
              let w := kv.2
              if whas w "wind_speed" && whas w "wind_direction" then
                let wind_speed := wget w "wind_speed" 0
                let wind_direction := wget w "wind_direction" 0
                if 0 ≤ |wind_direction - ab| ∧ |wind_direction - ab| ≤ 90 then
                  (acc.1 + wind_speed * 3.6, acc.2 + 1)
                else
                  (acc.1 - wind_speed * 3.6, acc.2 + 1)
              else acc
            let acc := r.weather_data.foldl step (0, 0)
            if acc.2 > 0 then
              let avg_wind_effect := acc.1 / (acc.2 : ℚ)
              let effective_speed := ac.cruise_speed_kmh + avg_wind_effect
              if effective_speed > 0 then r.distance / effective_speed + 0.5
              else total_time_hours
            else total_time_hours
        .ok ({ r with estimated_time := some total_time_hours }, some total_time_hours)

/-- The wind-angle classification of `Route.calculate_fuel_consumption`
(route.py lines 179-192): the absolute signed angular difference
`abs(((wind_direction − bearing + 180) % 360) − 180)` between the sampled wind
and the leg's bearing; at most 90 means headwind, above 90 tailwind. -/
def legWindAngle (geo : Geo) (wps : List Waypoint) (w : WeatherSample) (i : Nat) : ℚ :=
  let a := (wps.get? i).getD default
  let b := (wps.get? (i + 1)).getD default
  let bearing := geo.bearing a.latitude a.longitude b.latitude b.longitude
  let wind_direction := wget w "wind_direction_10m" 0
  |pymod (wind_direction - bearing + 180) 360 - 180|

/-- Per-segment wind factor of `Route.calculate_fuel_consumption` (route.py
lines 172-206): `none` when the per-leg weather key is absent (segment
skipped); otherwise the headwind (`1 + 0.02·component`) or floored tailwind
(`max 0.5 (1 − 0.015·component)`) multiplier. -/
def segWindFactor (geo : Geo) (wps : List Waypoint) (wd : WeatherMap) (i : Nat) :
    Option ℚ :=
  match List.lookup ("waypoint_" ++ toString i) wd with
  | none => none
  | some w =>
    let wind_speed := wget w "wind_speed_10m" 0
    let wind_angle := legWindAngle geo wps w i
    some (if wind_angle ≤ 90 then
            1 + 0.02 * (wind_speed * geo.cosDeg wind_angle)
          else
            max 0.5 (1 - 0.015 * (wind_speed * geo.cosDeg (wind_angle - 180))))

/-- The running exponential blend of `calculate_fuel_consumption` (route.py
line 206): `wf ← wf·(1−p) + seg·p` for each present segment factor. -/
def windFactorLoop (p : ℚ) : ℚ → List (Option ℚ) → ℚ
  | wf, [] => wf
  | wf, none :: rest => windFactorLoop p wf rest
  | wf, some s :: rest => windFactorLoop p (wf * (1 - p) + s * p) rest

/-- `Route.calculate_fuel_consumption` (route.py lines 159-215): raises on an
absent aircraft (unguarded attribute access) and on zero cruise speed;
otherwise `base · wind_factor · 1 · 1 / 2` with the wind factor blended per
segment and clamped below at 0.3. Stores the result. -/
def calculate_fuel_consumption (geo : Geo) (aircraft? : Option Aircraft) (r : Route)
    (weather_data : WeatherMap) : Except String (Route × ℚ) :=
  match aircraft? with
  | none => .error "AttributeError: NoneType object has no attribute cruise_speed_kmh"
  | some ac =>
    match pydiv r.distance ac.cruise_speed_kmh with
    | .error e => .error e
    | .ok flight_hours =>
      let base_fuel_kg := flight_hours * ac.fuel_consumption_rate_kg_hr
      let n := r.waypoints.length
      -- segment_proportion = 1 / (len(self.waypoints) - 1); the loop body only
      -- runs when n ≥ 2, so the divisor is never zero in Python.
      let p := 1 / ((n : ℚ) - 1)
      let wind_factor :=
        windFactorLoop p 1 ((List.range (n - 1)).map (segWindFactor geo r.waypoints weather_data))
      let wind_factor := max 0.3 wind_factor
      let total_fuel_kg := base_fuel_kg * wind_factor * 1 * 1 / 2
      .ok ({ r with fuel_consumption := total_fuel_kg }, total_fuel_kg)

/-- The fuel-sufficiency check of `calculate_fitness_score` (route.py lines
379-383): `(consumption − capacity) / capacity · 10` when consumption exceeds
capacity, else zero; the division raises when the capacity is zero. -/
def fuelPenaltyCalc (cons cap : ℚ) : Except String ℚ :=
  if cons > cap then (pydiv (cons - cap) cap).map (fun x => x * 10) else .ok 0

/-- Count of list elements satisfying a rational-valued risk predicate. -/
def countNodes (nodes : List WeatherSample) (pred : WeatherSample → Bool) : Nat :=
  (nodes.filter pred).length

/-- `Route.calculate_fitness_score` (route.py lines 308-479): recompute the
distance when the stored one is not positive; with no weather data, or fewer
than two weather samples, fall back to `distance / 1000`; otherwise combine
the safety penalties, normalized fuel and fuel-shortage penalty, plus an
extra long-route penalty beyond 5000 km. The only statement that can raise is
the fuel-shortage division by `fuel_capacity_kg` (possible when a supplied
aircraft has zero capacity). Stores the score. -/
def calculate_fitness_score (geo : Geo) (aircraft? : Option Aircraft)
    (weather_weight distance_weight : ℚ) (r : Route) : Except String (Route × ℚ) :=
  let r1 := if r.distance ≤ 0 then (calculate_total_distance geo r).1 else r
  if r1.weather_data.isEmpty then
    let fs := r1.distance / 1000
    .ok ({ r1 with fitness_score := fs }, fs)
  else
    let weather_nodes := r1.weather_data.map (·.2)
    if weather_nodes.length < 2 then
      let fs := r1.distance / 1000
      .ok ({ r1 with fitness_score := fs }, fs)
    else
      -- Step 1: flight heading from origin/destination deltas
      let flight_heading_deg :=
        match r1.origin, r1.destination with
        | some o, some de =>
          pymod (geo.atan2Deg (de.longitude - o.longitude) (de.latitude - o.latitude)) 360
        | _, _ => 0
      -- Step 2: ground speed and flight time
      let airspeed_km_h : ℚ := 900
      let gs_sum := (weather_nodes.map (fun node =>
        let jet_stream_speed := wget node "jet_stream_speed_250hPa" 0
        let jet_stream_direction := wget node "jet_stream_direction_250hPa" 0
        let jet_stream_component :=
          jet_stream_speed * geo.cosDeg |flight_heading_deg - jet_stream_direction|
        max (airspeed_km_h + jet_stream_component) (airspeed_km_h * 0.5))).sum
      let avg_ground_speed :=
        gs_sum / (if weather_nodes.isEmpty then 1 else (weather_nodes.length : ℚ))
      -- Python yields float("inf") when avg_ground_speed ≤ 0; that branch is
      -- unreachable here because every summand is at least 450 and the node
      -- count is at least 2, so avg_ground_speed ≥ 450 > 0.
      let flight_time_hours :=
        if avg_ground_speed > 0 then r1.distance / avg_ground_speed else 0
      -- Step 3: fuel consumption (aircraft or defaults)
      let fuel_consumption_rate :=
        match aircraft? with
        | some ac => ac.fuel_consumption_rate_kg_hr
        | none => 3000
      let fuel_capacity_kg :=
        match aircraft? with
        | some ac => ac.fuel_capacity_liters * 0.8
        | none => 70000
      let fuel_consumption_kg := fuel_consumption_rate * flight_time_hours
      -- Step 4: fuel sufficiency check
      match fuelPenaltyCalc fuel_consumption_kg fuel_capacity_kg with
      | .error e => .error e
      | .ok fuel_penalty =>
        -- Step 5: safety assessments
        let turbulence_risk := countNodes weather_nodes (fun node =>
          decide (|wget node "vertical_velocity_250hPa" 0| > 0.5))
        let turbulence_penalty :=
          if weather_nodes.isEmpty then 0
          else ((turbulence_risk : ℚ) / (weather_nodes.length : ℚ)) * 2
        let thunderstorm_risk := countNodes weather_nodes (fun node =>
          decide (wget node "cape" 0 > 1000 ∨ wget node "cloud_cover_high" 0 > 80))
        let thunderstorm_penalty :=
          if weather_nodes.isEmpty then 0
          else ((thunderstorm_risk : ℚ) / (weather_nodes.length : ℚ)) * 3
        let source_weather := weather_nodes.head?.getD []
        let dest_weather := weather_nodes.getLast?.getD []
        let visibility_source := wget source_weather "visibility" 10000
        let visibility_dest := wget dest_weather "visibility" 10000
        let cloud_cover_source := wget source_weather "cloud_cover" 0
        let cloud_cover_dest := wget dest_weather "cloud_cover" 0
        let visibility_penalty : ℚ :=
          if visibility_source < 5000 ∨ visibility_dest < 5000 then 1 else 0
        let cloud_cover_penalty : ℚ :=
          if cloud_cover_source > 80 ∨ cloud_cover_dest > 80 then 0.5 else 0
        let runway_risk := countNodes [source_weather, dest_weather] (fun w =>
          decide (wget w "precipitation" 0 > 10 ∨ wget w "rain" 0 > 5 ∨
                  wget w "showers" 0 > 5 ∨ wget w "snowfall" 0 > 1))
        let runway_penalty := (runway_risk : ℚ) * 0.75
        let crosswind_count := countNodes [source_weather, dest_weather] (fun w =>
          decide (wget w "wind_speed_10m" 0 *
                    geo.sinDeg |flight_heading_deg - wget w "wind_direction_10m" 0| > 20))
        let crosswind_penalty := (crosswind_count : ℚ) * 0.5
        let hazard_count := countNodes [source_weather, dest_weather] (fun w =>
          decide (wget w "weather_code" 0 > 50))
        let weather_hazard_penalty := (hazard_count : ℚ) * 0.3
        -- Step 6: route safety score
        let safety_score := turbulence_penalty + thunderstorm_penalty +
          visibility_penalty + cloud_cover_penalty + runway_penalty +
          crosswind_penalty + weather_hazard_penalty
        -- Step 7: combine (normalized_distance is computed but unused in the source)
        let normalized_fuel := fuel_consumption_kg / 10000
        let _normalized_distance := r1.distance / 5000
        let fitness_score := weather_weight * safety_score +
          distance_weight * normalized_fuel + fuel_penalty
        let fitness_score :=
          if r1.distance > 5000 then fitness_score + (r1.distance - 5000) / 1000
          else fitness_score
        .ok ({ r1 with fitness_score := fitness_score }, fitness_score)

/-!
## `backend/services/optimization/ppo_rerouter.py`
-/

/-- The identity-lookup loops of `_create_rerouted_path` (ppo_rerouter.py lines
303-307): scan the whole list and remember the index of the LAST waypoint with
the given id (the Python loop has no `break`), `-1` when absent. Python object
identity is modelled by id equality. -/
def lastMatchIdx (wps : List Waypoint) (pid : Nat) : Int :=
  wps.enum.foldl (fun acc p => if p.2.id = pid then (p.1 : Int) else acc) (-1)

/-- Nearest-by-coordinates fallback of `_create_rerouted_path` (ppo_rerouter.py
lines 309-319): first index attaining the strictly smallest geodesic distance,
`-1` on an empty list. -/
def nearestIdxByCoords (geo : Geo) (lat lon : ℚ) (wps : List Waypoint) : Int :=
  (wps.enum.foldl (fun acc p =>
    let d := geo.dist lat lon p.2.latitude p.2.longitude
    match acc with
    | none => some ((p.1 : Int), d)
    | some (j, dm) => if d < dm then some ((p.1 : Int), d) else some (j, dm)) none).elim
    (-1) (fun q => q.1)

/-- Route-type tag recovered from a waypoint name: the part after the last
underscore when the name has one, else `"alt"` (ppo_rerouter.py lines 371-374
and 395-398). -/
def spliceName (wp_name : String) : String :=
  let parts := wp_name.splitOn "_"
  if parts.length > 1 then parts.getLastD "" else "alt"

/-- The destination-guarantee block of `_create_rerouted_path`
(ppo_rerouter.py lines 380-408): `destProxy` is the deep copy of
`current_route.waypoints[-1]` that the source uses as its destination stand-in;
when the assembled list does not already end at its coordinates, a fresh-id
copy with the next sequential order is appended. `n_alt` is the length of the
spliced-in tail, fixing the fresh id as in the rest of the splicer. -/
def spliceDestination (seed : Nat) (n_alt : Nat) (destProxy : Waypoint)
    (combined : List Waypoint) : List Waypoint :=
  let is_destination_included :=
    match combined.getLast? with
    | some lastW =>
      decide (lastW.latitude = destProxy.latitude ∧ lastW.longitude = destProxy.longitude)
    | none => false
  if is_destination_included then combined
  else
    let ord := combined.length + 1
    let nm :=
      match combined.getLast? with
      | some lastW => "WP" ++ toString ord ++ "_" ++ spliceName lastW.name
      | none => "WP" ++ toString ord ++ "_dest"
    combined ++ [{ destProxy with id := seed + 1 + n_alt, order := ord, name := nm }]

/-- The fuel/estimated-time stage of `_create_rerouted_path`
(ppo_rerouter.py lines 450-467): with a bound aircraft and weather data,
recompute fuel and estimated time; otherwise default the estimated time from
a 900 km/h cruise assumption when it is still falsy. -/
def spliceMetricsTail (geo : Geo) (aircraft? : Option Aircraft) (r2 : Route) :
    Except String Route :=
  if aircraft?.isSome ∧ ¬ r2.weather_data.isEmpty then
    match calculate_fuel_consumption geo aircraft? r2 r2.weather_data with
    | .error e => .error e
    | .ok (r3, fuel_kg) =>
      -- line 458 re-assigns the value the fuel calculation already stored
      match calculate_estimated_time geo aircraft? { r3 with fuel_consumption := fuel_kg } with
      | .error e => .error e
      | .ok (r4, flight_time) => .ok { r4 with estimated_time := flight_time }
  else if ¬ estTruthy r2.estimated_time then
    .ok { r2 with estimated_time := some (r2.distance / 900 + 0.5) }
  else .ok r2

/-- The metric-recomputation phase of `_create_rerouted_path`
(ppo_rerouter.py lines 444-467): recompute distance and fitness, carry the
original estimated time when truthy, then run the fuel/estimated-time stage. -/
def spliceMetrics (geo : Geo) (aircraft? : Option Aircraft) (current_route : Route)
    (r0 : Route) : Except String Route :=
  let r1 := (calculate_total_distance geo r0).1
  match calculate_fitness_score geo none 0.6 0.4 r1 with
  | .error e => .error e
  | .ok (r2, _) =>
    spliceMetricsTail geo aircraft?
      (if estTruthy current_route.estimated_time then
        { r2 with estimated_time := current_route.estimated_time }
      else r2)

/-- The waypoint-assembly phase of `_create_rerouted_path` (ppo_rerouter.py
lines 299-378): locate the current position (identity lookup, else nearest by
coordinates) and the blocked waypoint, pick the retained head and spliced tail,
and renumber — head waypoints verbatim with sequential orders, tail waypoints
with fresh ids and `WP<order>_<route-type>` names. Returns the combined list
together with the tail length (which fixes the destination copy's fresh id). -/
def spliceAssembly (geo : Geo) (seed : Nat) (current_route : Route)
    (blocked_waypoint : Waypoint) (current_position : Waypoint)
    (alternative_route : Route) (target_index : Nat) : List Waypoint × Nat :=
  let idx0 := lastMatchIdx current_route.waypoints current_position.id
  let blocked_index := lastMatchIdx current_route.waypoints blocked_waypoint.id
  let current_pos_index :=
    if idx0 = -1 then
      nearestIdxByCoords geo current_position.latitude current_position.longitude
        current_route.waypoints
    else idx0
  let pair :=
    if blocked_index ≠ -1 ∧ current_pos_index < blocked_index then
      -- upstream of the block: retained head + alternative from target_index+2
      let waypoints_initial := current_route.waypoints.take (current_pos_index + 1).toNat
      let alt_waypoints := alternative_route.waypoints
      let join_index := target_index + 2
      let join_index :=
        if join_index ≥ alt_waypoints.length then alt_waypoints.length - 1 else join_index
      (waypoints_initial, alt_waypoints.drop join_index)
    else
      -- at/past the block, or block not found: continue on the current route
      (current_route.waypoints.take (current_pos_index + 1).toNat,
       current_route.waypoints.drop (current_pos_index + 1).toNat)
  let waypoints_initial := pair.1
  let waypoints_alt := pair.2
  -- renumber: retained head verbatim, new ids/names/orders for the tail
  let combined0 := waypoints_initial.enum.map (fun p => { p.2 with order := p.1 + 1 })
  let next_order := combined0.length + 1
  let tail := waypoints_alt.enum.map (fun p =>
    { p.2 with
      id := seed + 1 + p.1,
      name := "WP" ++ toString (next_order + p.1) ++ "_" ++ spliceName p.2.name,
      order := next_order + p.1 })
  (combined0 ++ tail, waypoints_alt.length)

/-- `PPORerouter._create_rerouted_path` (ppo_rerouter.py lines 287-472): the
path splicer. `seed` models the `uuid4()` supply; the fresh route id is `seed`
and fresh waypoint ids are `seed + 1, seed + 2, …`. Raises (`IndexError`) when
the current route has no waypoints, mirroring `current_route.waypoints[-1]`.
The `target_waypoint` parameter is never read by the body (as in the source). -/
def _create_rerouted_path (geo : Geo) (aircraft? : Option Aircraft) (seed : Nat)
    (current_route : Route) (blocked_waypoint : Waypoint) (current_position : Waypoint)
    (alternative_route : Route) (target_waypoint : Waypoint) (target_index : Nat) :
    Except String Route :=
  let _ := target_waypoint
  let assembled := spliceAssembly geo seed current_route blocked_waypoint current_position
    alternative_route target_index
  let combined := assembled.1
  let waypoints_alt_length := assembled.2
  -- `destination_waypoint = copy.deepcopy(current_route.waypoints[-1])`
  match current_route.waypoints.getLast? with
  | none => .error "IndexError: list index out of range"
  | some destProxy =>
    let combined_final := spliceDestination seed waypoints_alt_length destProxy combined
    let reroute_record := (blocked_waypoint.name, alternative_route.path_type)
    -- weather carried over: original's when present, else the alternative's,
    -- else the constructor's empty dict (ppo_rerouter.py lines 436-442)
    let carried_weather :=
      if ¬ current_route.weather_data.isEmpty then current_route.weather_data
      else if ¬ alternative_route.weather_data.isEmpty then alternative_route.weather_data
      else []
    let r0 : Route := {
      id := seed,
      name := "Rerouted_" ++ current_route.name,
      origin := current_route.origin,
      destination := current_route.destination,
      waypoints := combined_final,
      path_type := "rerouted_" ++ alternative_route.path_type,
      optimization_method := "ppo",
      distance := 0, fitness_score := 0, fuel_consumption := 0,
      estimated_time := some 0, leg_distances := [], leg_times := [],
      weather_data := carried_weather,
      reroute_history :=
        match current_route.reroute_history with
        | some h => if h.isEmpty then some [reroute_record] else some (h ++ [reroute_record])
        | none => some [reroute_record] }
    spliceMetrics geo aircraft? current_route r0

/-- The nearest-waypoint scan of `evaluate_alternatives`/`reroute`
(ppo_rerouter.py lines 41-51 and 222-232): first index attaining the strictly
smallest distance to the current position, `none` on an empty list. -/
def nearestWaypoint (geo : Geo) (pos : Waypoint) (wps : List Waypoint) :
    Option (Waypoint × Nat × ℚ) :=
  wps.enum.foldl (fun acc p =>
    let d := geo.dist pos.latitude pos.longitude p.2.latitude p.2.longitude
    match acc with
    | none => some (p.2, p.1, d)
    | some (w, j, dm) => if d < dm then some (p.2, p.1, d) else some (w, j, dm)) none

/-- The weather-risk accumulation of `evaluate_alternatives` (ppo_rerouter.py
lines 84-100). -/
def weatherRisk (wd : WeatherMap) : ℚ :=
  (wd.map (fun kv =>
    let w := kv.2
    let v_velocity := |wget w "vertical_velocity_250hPa" 0|
    let turb := if v_velocity > 0.5 then v_velocity * 2 else 0
    let visibility := wget w "visibility" 10000
    let vis := if visibility < 5000 then (5000 - visibility) / 1000 else 0
    let cloud_cover := wget w "cloud_cover" 0
    let cloud := if cloud_cover > 80 then (cloud_cover - 80) / 5 else 0
    turb + vis + cloud)).sum

/-- State of a `PPORerouter` instance (ppo_rerouter.py lines 18-24). The
weather service is the external async collaborator, modelled as a pure
route-to-weather function. -/
structure PPORerouter where
  used_route_types : List String
  weather_service : Option (Route → WeatherMap)
  aircraft : Option Aircraft
  consider_fuel : Bool

/-- `self.consider_fuel and self.weather_service and self.aircraft`
(ppo_rerouter.py lines 67 and 186). -/
def evalAware (st : PPORerouter) : Bool :=
  st.consider_fuel && st.weather_service.isSome && st.aircraft.isSome

/-- One ranked candidate produced by `evaluate_alternatives`
(ppo_rerouter.py lines 111-122). -/
structure ScoreEntry where
  route : Route
  target_waypoint : Waypoint
  target_index : Nat
  distance : ℚ
  score : ℚ
  fuel_kg : ℚ
  weather_risk : ℚ
  rerouted_path : Route
deriving DecidableEq

/-- Stable insertion step: place `x` after every element with a strictly
smaller key and before the first element whose key is not smaller. -/
def stableInsert (key : α → ℚ) (x : α) : List α → List α
  | [] => [x]
  | y :: ys => if key y < key x then y :: stableInsert key x ys else x :: y :: ys

/-- Python's `list.sort(key=…)` is a stable ascending sort; as a function of
the input list it is uniquely determined, and stable insertion sort computes
it (used for ppo_rerouter.py lines 125 and 250). -/
def stableSortByKey (key : α → ℚ) : List α → List α
  | [] => []
  | x :: xs => stableInsert key x (stableSortByKey key xs)

/-- One iteration of the `evaluate_alternatives` loop (ppo_rerouter.py lines
33-122): `.ok none` when the alternative is skipped — its path-type is in
`used_route_types` or equals `"direct"`, or it has no waypoints — and
`.ok (some entry)` with the scored candidate otherwise. Errors raised by the
splicer or the fuel computation propagate. -/
def evalEntry (geo : Geo) (st : PPORerouter) (current_route : Route)
    (blocked_waypoint : Waypoint) (current_position : Waypoint) (seed : Nat)
    (alt_route : Route) : Except String (Option ScoreEntry) :=
  if alt_route.path_type ∈ st.used_route_types ∨ alt_route.path_type = "direct" then
    .ok none
  else
    match nearestWaypoint geo current_position alt_route.waypoints with
    | none => .ok none
    | some (nearest_wp, nearest_index, min_distance) =>
      match _create_rerouted_path geo st.aircraft seed current_route blocked_waypoint
          current_position alt_route nearest_wp nearest_index with
      | .error e => .error e
      | .ok rerouted =>
        match (if evalAware st then
                 let rer2 :=
                   if rerouted.weather_data.isEmpty then
                     { rerouted with
                       weather_data := (st.weather_service.getD (fun _ => [])) rerouted }
                   else rerouted
                 calculate_fuel_consumption geo st.aircraft rer2 rer2.weather_data
               else .ok (rerouted, 0)) with
        | .error e => .error e
        | .ok (rer3, fuel_kg) =>
          let base_score := rer3.fitness_score
          let weather_risk :=
            if st.consider_fuel ∧ ¬ rer3.weather_data.isEmpty then
              weatherRisk rer3.weather_data
            else 0
          let fuel_factor : ℚ := if st.consider_fuel then 0.2 else 0
          let weather_factor : ℚ := if st.consider_fuel then 0.1 else 0
          let total_score := base_score + fuel_kg * fuel_factor + weather_risk * weather_factor
          .ok (some { route := alt_route, target_waypoint := nearest_wp,
                      target_index := nearest_index, distance := min_distance,
                      score := total_score, fuel_kg := fuel_kg,
                      weather_risk := weather_risk, rerouted_path := rer3 })

/-- The per-alternative loop of `PPORerouter.evaluate_alternatives`
(ppo_rerouter.py lines 33-122), in input order (the final sort is applied by
`evaluate_alternatives`). Each processed alternative advances the fresh-id
seed past the ids its splice could consume. -/
def evalLoop (geo : Geo) (st : PPORerouter) (current_route : Route)
    (blocked_waypoint : Waypoint) (current_position : Waypoint) :
    Nat → List Route → Except String (List ScoreEntry)
  | _, [] => .ok []
  | seed, alt_route :: rest =>
    match evalEntry geo st current_route blocked_waypoint current_position seed alt_route with
    | .error e => .error e
    | .ok none => evalLoop geo st current_route blocked_waypoint current_position seed rest
    | .ok (some entry) =>
      match evalLoop geo st current_route blocked_waypoint current_position
          (seed + alt_route.waypoints.length + 2) rest with
      | .error e => .error e
      | .ok entries => .ok (entry :: entries)

/-- `PPORerouter.evaluate_alternatives` (ppo_rerouter.py lines 27-127): the
loop above followed by the stable ascending sort on `score`. -/
def evaluate_alternatives (geo : Geo) (st : PPORerouter) (current_route : Route)
    (blocked_waypoint : Waypoint) (current_position : Waypoint) (seed : Nat)
    (alternative_routes : List Route) : Except String (List ScoreEntry) :=
  (evalLoop geo st current_route blocked_waypoint current_position seed
    alternative_routes).map (stableSortByKey (fun e => e.score))

/-- The used-path-type derivation at the head of `PPORerouter.reroute`
(ppo_rerouter.py lines 156-166): the current route's own path-type when the
reroute history is missing or empty, else the alternative path-types recorded
in the history. -/
def resetUsedRouteTypes (current_route : Route) : List String :=
  match current_route.reroute_history with
  | none => [current_route.path_type]
  | some h => if h.isEmpty then [current_route.path_type] else h.map (fun p => p.2)

/-- A reroute target of the non-weather-aware branch of `reroute`
(ppo_rerouter.py lines 234-242). -/
structure RerouteTarget where
  route : Route
  target_waypoint : Waypoint
  target_index : Nat
  distance : ℚ

/-- `PPORerouter.reroute` (ppo_rerouter.py lines 129-285). Returns the updated
rerouter state (Python mutates `self.used_route_types`) together with the
result; `.ok none` is Python's `return None`. When no current position is
supplied it is resolved to the waypoint before the blocked one (marked ACTIVE
in place, so the current route is updated too), with `None` returned when the
blocked waypoint is first or absent. -/
def reroute (geo : Geo) (st : PPORerouter) (seed : Nat) (blocked_waypoint : Waypoint)
    (current_route : Route) (alternative_routes : List Route)
    (current_position? : Option Waypoint) :
    PPORerouter × Except String (Option Route) :=
  -- `if not blocked_waypoint or not current_route or not alternative_routes`:
  -- the two objects are always truthy; only the list can be falsy here.
  if alternative_routes.isEmpty then (st, .ok none)
  else
    let st := { st with used_route_types := resetUsedRouteTypes current_route }
    let resolved : Option (Route × Waypoint) :=
      match current_position? with
      | some cp => some (current_route, cp)
      | none =>
        -- `current_route.waypoints.index(blocked_waypoint)`: first identity match
        match current_route.waypoints.findIdx? (fun w => w.id == blocked_waypoint.id) with
        | some blocked_index =>
          if blocked_index > 0 then
            let cp := (current_route.waypoints.get? (blocked_index - 1)).getD default
            let cp := { cp with status := WaypointStatus.active }
            let wps := current_route.waypoints.set (blocked_index - 1) cp
            some ({ current_route with waypoints := wps }, cp)
          else none     -- first waypoint blocked: cannot reroute from origin
        | none => none  -- ValueError: blocked waypoint not in current route
    match resolved with
    | none => (st, .ok none)
    | some (cur, current_position) =>
      if evalAware st then
        match evaluate_alternatives geo st cur blocked_waypoint current_position seed
            alternative_routes with
        | .error e => (st, .error e)
        | .ok [] => (st, .ok none)
        | .ok (best :: _) =>
          ({ st with used_route_types := st.used_route_types ++ [best.route.path_type] },
           .ok (some best.rerouted_path))
      else
        let reroute_targets := alternative_routes.filterMap (fun alt_route =>
          if alt_route.path_type ∈ st.used_route_types ∨ alt_route.path_type = "direct" then
            none
          else
            (nearestWaypoint geo current_position alt_route.waypoints).map (fun t =>
              RerouteTarget.mk alt_route t.1 t.2.1 t.2.2))
        match stableSortByKey (fun t => t.distance) reroute_targets with
        | [] => (st, .ok none)
        | best :: _ =>
          match _create_rerouted_path geo st.aircraft seed cur blocked_waypoint
              current_position best.route best.target_waypoint best.target_index with
          | .error e => (st, .error e)
          | .ok rr =>
            let st := { st with used_route_types := st.used_route_types ++ [best.route.path_type] }
            if ¬ estTruthy rr.estimated_time then
              match st.aircraft with
              | some _ =>
                match calculate_estimated_time geo st.aircraft rr with
                | .error e => (st, .error e)
                | .ok (rr2, flight_time) => (st, .ok (some { rr2 with estimated_time := flight_time }))
              | none => (st, .ok (some { rr with estimated_time := some (rr.distance / 900 + 0.5) }))
            else (st, .ok (some rr))

/-!
## `backend/realtime/route_adjuster.py`
-/

/-- The destination argument handed to the external candidate generator
(route_adjuster.py lines 80-93): either the next waypoint or the route's
destination airport (which may be Python `None`, hence the `Option` at use
sites). -/
inductive PointRef where
  | wp (w : Waypoint)
  | ap (a : Airport)
deriving DecidableEq

/-- The exclusion zone around the blocked waypoint (route_adjuster.py lines
96-102): centre coordinates and the fixed 0.2-degree (~20 km) radius. -/
structure ExcludedArea where
  center : ℚ × ℚ
  radius : ℚ
deriving DecidableEq

/-- Modelled from the spec: `Waypoint.mark_as_blocked` of `models/waypoint.py`
(design §4.4 step 2: "transition it to BLOCKED"), applied in place at index
`i` of a route's waypoint list. -/
def markBlocked (wps : List Waypoint) (i : Nat) : List Waypoint :=
  wps.set i { (wps.get? i).getD default with status := WaypointStatus.blocked }

/-- Modelled from the spec: `Waypoint.mark_as_active` of `models/waypoint.py`
(design §4.4 step 3: the previous waypoint is "transitioned to ACTIVE"),
applied in place at index `i` of a route's waypoint list. -/
def markActive (wps : List Waypoint) (i : Nat) : List Waypoint :=
  wps.set i { (wps.get? i).getD default with status := WaypointStatus.active }

/-- The in-memory registry `RouteAdjuster.active_routes`: a Python dict from
route id to route, in insertion order. -/
abbrev Registry : Type := List (Nat × Route)

/-- Python dict assignment `reg[k] = r`: overwrite in place, else append. -/
def updateReg (reg : Registry) (k : Nat) (r : Route) : Registry :=
  if (List.lookup k reg).isSome then
    reg.map (fun p => if p.1 = k then (k, r) else p)
  else reg ++ [(k, r)]

/-- `RouteAdjuster.register_route` (route_adjuster.py lines 150-153). -/
def register_route (reg : Registry) (r : Route) : Registry :=
  updateReg reg r.id r

/-- The `next_waypoint` selection of `handle_blocked_waypoint`
(route_adjuster.py lines 79-93): the waypoint after the blocked one (or, when
the blocked waypoint is first, the second waypoint), else the route's
destination. -/
def adjusterNext (wps : List Waypoint) (dest : Option Airport) (blocked_idx : Nat) :
    Option PointRef :=
  if blocked_idx > 0 then
    if blocked_idx + 1 < wps.length then (wps.get? (blocked_idx + 1)).map PointRef.wp
    else dest.map PointRef.ap
  else
    if wps.length > 1 then (wps.get? 1).map PointRef.wp
    else dest.map PointRef.ap

/-- The candidate-generation request of `handle_blocked_waypoint`
(route_adjuster.py lines 95-121): exclusion zone around the blocked waypoint,
synthetic `TMP…` origin airport at the current coordinates, and the external
generator call. `gen` is the external collaborator
`route_generator.generate_alternative_routes`. -/
def adjusterCandidates (gen : Airport → Option PointRef → ExcludedArea → List Route)
    (seed : Nat) (r : Route) (wps : List Waypoint) (blocked_idx : Nat)
    (clat clon : ℚ) : List Route :=
  let bw := (wps.get? blocked_idx).getD default
  let excluded_area : ExcludedArea := ⟨(bw.latitude, bw.longitude), 0.2⟩
  let temp_origin : Airport :=
    ⟨"TMP" ++ toString seed, "Current Position", "", "", clat, clon⟩
  gen temp_origin (adjusterNext wps r.destination blocked_idx) excluded_area

/-- Steps 2-5 of `handle_blocked_waypoint` after the blocked index is found
(route_adjuster.py lines 65-121): mark the blocked waypoint BLOCKED, mark its
predecessor ACTIVE (when it has one) and read the current coordinates from it
— or from the route's origin, raising (`AttributeError`) when the origin is
Python `None` — then issue the generation request. Returns the status-mutated
waypoint list together with the generated candidates. -/
def adjusterStep (gen : Airport → Option PointRef → ExcludedArea → List Route)
    (seed : Nat) (r : Route) (blocked_idx : Nat) :
    Except String (List Waypoint × List Route) :=
  let wps1 := markBlocked r.waypoints blocked_idx
  if blocked_idx > 0 then
    let wps2 := markActive wps1 (blocked_idx - 1)
    let cp := (wps2.get? (blocked_idx - 1)).getD default
    .ok (wps2, adjusterCandidates gen seed r wps2 blocked_idx cp.latitude cp.longitude)
  else
    match r.origin with
    | none => .error "AttributeError: NoneType object has no attribute latitude"
    | some o =>
      .ok (wps1, adjusterCandidates gen seed r wps1 blocked_idx o.latitude o.longitude)

/-- Steps 6-8 of `handle_blocked_waypoint` (route_adjuster.py lines 123-148):
run the optimizer over the candidates; on no usable segment return `None`
(the status mutations already applied to the stored route persist); otherwise
commit prefix-before-block + segment interior (synthetic first/last dropped) +
suffix-after-block. `route2` is the stored route with statuses mutated. -/
def adjusterFinish (optimize : List Route → Option Route) (reg : Registry)
    (route_id : Nat) (route2 : Route) (blocked_idx : Nat) (cands : List Route) :
    Registry × Except String (Option Route) :=
  match optimize cands with
  | none => (updateReg reg route_id route2, .ok none)
  | some new_segment =>
    if new_segment.waypoints.isEmpty then (updateReg reg route_id route2, .ok none)
    else
      let wps := route2.waypoints
      let new_waypoints :=
        (if blocked_idx > 0 then wps.take blocked_idx else []) ++
        (if new_segment.waypoints.length > 2 then (new_segment.waypoints.drop 1).dropLast
         else []) ++
        (if blocked_idx + 1 < wps.length then wps.drop (blocked_idx + 1) else [])
      let route3 := { route2 with waypoints := new_waypoints }
      (updateReg reg route_id route3, .ok (some route3))

/-- `RouteAdjuster.handle_blocked_waypoint` (route_adjuster.py lines 47-148).
`gen` and `optimize` are the external generator and optimizer collaborators;
`seed` models the `uuid4()` used in the synthetic origin's IATA code. Returns
the registry after the call together with the returned value (`.ok none` for
Python `None`). Because the statuses are changed through the shared route
object, every return path after the lookup reflects them in the registry. -/
def handle_blocked_waypoint (gen : Airport → Option PointRef → ExcludedArea → List Route)
    (optimize : List Route → Option Route) (seed : Nat) (reg : Registry)
    (route_id waypoint_id : Nat) : Registry × Except String (Option Route) :=
  match List.lookup route_id reg with
  | none => (reg, .ok none)
  | some route =>
    match route.waypoints.findIdx? (fun w => w.id == waypoint_id) with
    | none => (reg, .ok none)
    | some blocked_idx =>
      match adjusterStep gen seed route blocked_idx with
      | .error e =>
        (updateReg reg route_id { route with waypoints := markBlocked route.waypoints blocked_idx },
         .error e)
      | .ok (wps2, cands) =>
        adjusterFinish optimize reg route_id { route with waypoints := wps2 } blocked_idx cands

/-!
## Concrete fixtures used by witnesses and counterexamples
-/

/-- A concrete, fully computable geometry oracle: taxicab distance, constant
bearing 10°, `cos ≡ 1`, `sin ≡ 0`, `atan2 ≡ 45°`. -/
def geoFix : Geo :=
  ⟨fun a b c d => |a - c| + |b - d|, fun _ _ _ _ => 10, fun _ => 1, fun _ => 0, fun _ _ => 45⟩

def apFix1 : Airport := ⟨"AAA", "Alpha", "", "", 1, 2⟩

def apFix2 : Airport := ⟨"BBB", "Beta", "", "", 3, 4⟩

/-- A pending waypoint named `WP<i>_left` at the given coordinates. -/
def wpFix (i : Nat) (la lo : ℚ) : Waypoint :=
  ⟨i, "WP" ++ toString i ++ "_left", la, lo, i, WaypointStatus.pending⟩

/-- A registered-style route with origin/destination but no waypoints. -/
def routeNoWp : Route :=
  ⟨100, "R", some apFix1, some apFix2, [], "direct", "aco", 0, 0, 0, some 0, [], [], [], none⟩

/-- The main three-waypoint fixture route. -/
def routeFix : Route :=
  { routeNoWp with waypoints := [wpFix 1 1 1, wpFix 2 2 2, wpFix 3 3 3] }

/-- A one-waypoint alternative route with a fresh path-type. -/
def altFix : Route :=
  { routeNoWp with id := 200, waypoints := [wpFix 7 5 5], path_type := "special" }

/-- The status-independent content of a waypoint: id, name, coordinates and
order. The in-place `mark_as_*` transitions leave it unchanged. -/
def wpCore (w : Waypoint) : Nat × String × ℚ × ℚ × Nat :=
  (w.id, w.name, w.latitude, w.longitude, w.order)

/-- A registry holding the fixture route under its id. -/
def regFix : Registry := [(100, routeFix)]

/-- A three-waypoint bypass segment (synthetic first and last, one interior). -/
def segFix : Route :=
  { routeNoWp with id := 300, waypoints := [wpFix 50 1 1, wpFix 51 9 9, wpFix 52 2 2] }

/-- An external generator stub returning no candidates. -/
def genFix : Airport → Option PointRef → ExcludedArea → List Route := fun _ _ _ => []

/-- An external optimizer stub producing no usable bypass. -/
def optNone : List Route → Option Route := fun _ => none

/-- An external optimizer stub selecting the fixture bypass segment. -/
def optSeg : List Route → Option Route := fun _ => some segFix

/-- A current route that has already been rerouted once (history records the
"left" path-type) and now flies a "special" path-type. -/
def curC5 : Route :=
  { routeFix with path_type := "special", reroute_history := some [("w", "left")] }

/-- The rerouter state derived for `curC5` exactly as `reroute` derives it:
used path-types come from the non-empty history only. -/
def stC5 : PPORerouter := ⟨resetUsedRouteTypes curC5, none, none, true⟩

/-- Pointwise order on optional segment wind factors: absent segments must be
absent on both sides, present ones are compared by `≤`. -/
def optLE : Option ℚ → Option ℚ → Prop
  | none, none => True
  | some x, some y => x ≤ y
  | _, _ => False

/-- The value `calculate_fuel_consumption` stores and returns on success,
written out: base fuel times the clamped blended wind factor times the two
placeholder factors, halved. -/
def fuelValue (geo : Geo) (ac : Aircraft) (r : Route) (wd : WeatherMap) : ℚ :=
  (r.distance / ac.cruise_speed_kmh * ac.fuel_consumption_rate_kg_hr) *
    max 0.3 (windFactorLoop (1 / ((r.waypoints.length : ℚ) - 1)) 1
      ((List.range (r.waypoints.length - 1)).map (segWindFactor geo r.waypoints wd))) *
    1 * 1 / 2

/-- A geometry oracle with zero bearings and `cos ≡ 1` for wind fixtures. -/
def geoC6 : Geo := ⟨fun _ _ _ _ => 0, fun _ _ _ _ => 0, fun _ => 1, fun _ => 0, fun _ _ => 0⟩

def acC6 : Aircraft := ⟨900, 3000, 100⟩

/-- A two-waypoint route of stored distance 900 km. -/
def rC6 : Route := { routeNoWp with waypoints := [wpFix 1 0 0, wpFix 2 0 0], distance := 900 }

/-- Leg-0 weather: pure headwind (direction 0 against bearing 0) at speed 1. -/
def wC6 : WeatherSample := [("wind_speed_10m", 1), ("wind_direction_10m", 0)]

/-- The same headwind at speed 2. -/
def wC6b : WeatherSample := [("wind_speed_10m", 2), ("wind_direction_10m", 0)]

def wdC6 : WeatherMap := [("waypoint_0", wC6)]

def wdC6b : WeatherMap := [("waypoint_0", wC6b)]

/-!
## General lemmas
-/

theorem head_filter_eq_find (p : α → Bool) (l : List α) :
    (l.filter p).head? = l.find? p := by
  induction l with
  | nil => rfl
  | cons a t ih =>
    by_cases h : p a <;> simp [List.filter_cons, List.find?_cons, h, ih]

theorem fuelPenaltyCalc_ok (cons cap : ℚ) (h : cap ≠ 0) :
    ∃ q, fuelPenaltyCalc cons cap = .ok q := by
  unfold fuelPenaltyCalc pydiv
  by_cases hc : cons > cap <;> simp [hc, h, Except.map]

theorem fitness_ok_no_aircraft (geo : Geo) (ww dw : ℚ) (r : Route) :
    ∃ p, calculate_fitness_score geo none ww dw r = .ok p := by
  cases hx : calculate_fitness_score geo none ww dw r with
  | ok p => exact ⟨p, rfl⟩
  | error e =>
    exfalso
    revert hx
    unfold calculate_fitness_score
    by_cases h1 :
        (if r.distance ≤ 0 then (calculate_total_distance geo r).1 else r).weather_data.isEmpty
    · simp only [h1, if_true]; intro hx; exact Except.noConfusion hx
    · simp only [h1, Bool.false_eq_true, if_false]
      by_cases h2 :
          ((if r.distance ≤ 0 then (calculate_total_distance geo r).1 else r).weather_data.map
            (fun x => x.2)).length < 2
      · simp only [h2, if_true]; intro hx; exact Except.noConfusion hx
      · simp only [h2, if_false]
        split
        · next e' heq =>
          obtain ⟨q, hq⟩ := fuelPenaltyCalc_ok _ (70000 : ℚ) (by norm_num)
          rw [hq] at heq
          exact Except.noConfusion heq
        · intro hx; exact Except.noConfusion hx

/-!
## Claims
-/

/-- **C10.** For every route, `get_current_waypoint` returns the first waypoint
in sequence order whose status is ACTIVE (`none` when no waypoint is ACTIVE),
and the result is identical for any two values of the `current_time` argument. -/
theorem c10_get_current_waypoint_first_active (r : Route) (t₁ t₂ : Option ℚ) :
    get_current_waypoint r t₁ =
      r.waypoints.find? (fun wp => wp.status = WaypointStatus.active) ∧
    get_current_waypoint r t₁ = get_current_waypoint r t₂ :=
  ⟨head_filter_eq_find _ _, rfl⟩

/-- **C7.** For every route whose weather-sample mapping has fewer than 2
samples, `calculate_fitness_score` returns exactly `distance / 1000` (storing
it), recomputing the distance first when the stored distance is not positive. -/
theorem c7_fitness_fallback (geo : Geo) (aircraft? : Option Aircraft) (ww dw : ℚ)
    (r : Route) (h : r.weather_data.length < 2) :
    calculate_fitness_score geo aircraft? ww dw r =
      (let r1 := if r.distance ≤ 0 then (calculate_total_distance geo r).1 else r
       .ok ({ r1 with fitness_score := r1.distance / 1000 }, r1.distance / 1000)) := by
  have hw : (if r.distance ≤ 0 then (calculate_total_distance geo r).1 else r).weather_data =
      r.weather_data := by
    by_cases hd : r.distance ≤ 0 <;> simp [hd, calculate_total_distance]
  unfold calculate_fitness_score
  by_cases he :
      (if r.distance ≤ 0 then (calculate_total_distance geo r).1 else r).weather_data.isEmpty
  · simp only [he, if_true]
  · have hlen :
        ((if r.distance ≤ 0 then (calculate_total_distance geo r).1 else r).weather_data.map
          (fun x => x.2)).length < 2 := by
      rw [List.length_map, hw]; exact h
    simp only [he, Bool.false_eq_true, if_false, hlen, if_true]

/-- **C7 witness.** The fallback at a concrete route with one weather sample
and stored distance 0 (hence recomputed to 6 by the taxicab oracle). -/
theorem c7_fitness_fallback_witness :
    ({ routeFix with weather_data := [("waypoint_0", [("cape", 2000)])] } : Route).weather_data.length < 2 ∧
    calculate_fitness_score geoFix none 0.6 0.4
        { routeFix with weather_data := [("waypoint_0", [("cape", 2000)])] } =
      (let r1 := if ({ routeFix with weather_data := [("waypoint_0", [("cape", 2000)])] } : Route).distance ≤ 0 then
          (calculate_total_distance geoFix { routeFix with weather_data := [("waypoint_0", [("cape", 2000)])] }).1
        else { routeFix with weather_data := [("waypoint_0", [("cape", 2000)])] }
       .ok ({ r1 with fitness_score := r1.distance / 1000 }, r1.distance / 1000)) :=
  ⟨by decide, c7_fitness_fallback geoFix none 0.6 0.4 _ (by decide)⟩

/-- **C4 counterexample.** A route with origin and destination present but zero
waypoints: `calculate_total_distance` returns 0 with an empty leg array, not
the origin→destination great-circle distance (4 under the taxicab oracle). -/
theorem c4_counterexample :
    (calculate_total_distance geoFix routeNoWp).2 = 0 ∧
    (calculate_total_distance geoFix routeNoWp).1.leg_distances = [] ∧
    routeNoWp.waypoints = [] ∧
    routeNoWp.origin.isSome ∧ routeNoWp.destination.isSome ∧
    geoFix.dist apFix1.latitude apFix1.longitude apFix2.latitude apFix2.longitude = 4 := by
  refine ⟨?_, ?_, rfl, rfl, rfl, ?_⟩ <;>
    norm_num [calculate_total_distance, geoFix, routeNoWp, apFix1, apFix2]

/-- **C4 (amended).** For every route with zero waypoints,
`calculate_total_distance` returns 0 and stores an empty `leg_distances`
array, regardless of whether origin and destination are present: there is no
origin→destination single-leg fallback. -/
theorem c4_empty_waypoints_distance (geo : Geo) (r : Route) (h : r.waypoints = []) :
    calculate_total_distance geo r = ({ r with leg_distances := [], distance := 0 }, 0) := by
  cases horig : r.origin <;> cases hdest : r.destination <;>
    simp [calculate_total_distance, h, horig, hdest]

/-- **C4 witness.** The amended statement at the concrete zero-waypoint route. -/
theorem c4_empty_waypoints_distance_witness :
    routeNoWp.waypoints = [] ∧
    calculate_total_distance geoFix routeNoWp =
      ({ routeNoWp with leg_distances := [], distance := 0 }, 0) :=
  ⟨rfl, c4_empty_waypoints_distance geoFix routeNoWp rfl⟩

/-- **C2 counterexample.** `calculate_fuel_consumption` raises
(`AttributeError` on the unchecked `aircraft.cruise_speed_kmh` access) instead
of degrading when the aircraft is absent. -/
theorem c2_counterexample :
    calculate_fuel_consumption geoFix none routeFix [] =
      .error "AttributeError: NoneType object has no attribute cruise_speed_kmh" := rfl

/-- **C2 (amended).** With the aircraft absent, `calculate_total_distance`,
`calculate_leg_times`, `calculate_estimated_time` and
`calculate_fitness_score` degrade to their documented default/null/zero
results without failing — but `calculate_fuel_consumption` raises rather than
degrading. -/
theorem c2_local_computations (geo : Geo) (r : Route) (wd : WeatherMap) (ww dw : ℚ) :
    calculate_leg_times geo none r = ({ r with leg_times := [] }, []) ∧
    calculate_estimated_time geo none r = .ok (r, none) ∧
    (∃ e, calculate_fuel_consumption geo none r wd = .error e) ∧
    (∃ p, calculate_fitness_score geo none ww dw r = .ok p) ∧
    (calculate_total_distance geo r).1.distance =
      (calculate_total_distance geo r).1.leg_distances.sum :=
  ⟨rfl, rfl, ⟨_, rfl⟩, fitness_ok_no_aircraft geo ww dw r, rfl⟩

/-- **C9.** When `reroute` is called without an explicit current position and
the blocked waypoint is the first waypoint of the current route, or absent
from it, the call returns `None` (without any rerouted path and without
raising), for every non-empty alternatives list. -/
theorem c9_reroute_none_when_blocked_first_or_absent (geo : Geo) (st : PPORerouter)
    (seed : Nat) (blocked : Waypoint) (cur : Route) (alts : List Route)
    (halts : alts ≠ [])
    (h : cur.waypoints.findIdx? (fun w => w.id == blocked.id) = some 0 ∨
         cur.waypoints.findIdx? (fun w => w.id == blocked.id) = none) :
    (reroute geo st seed blocked cur alts none).2 = .ok none := by
  unfold reroute
  have hne : alts.isEmpty = false := by
    cases alts with
    | nil => exact absurd rfl halts
    | cons a t => rfl
  rcases h with h | h <;> simp [hne, h]

/-- **C9 witness.** The first waypoint of the fixture route reported blocked,
with one alternative. -/
theorem c9_reroute_none_witness :
    (reroute geoFix ⟨[], none, none, true⟩ 42 (wpFix 1 1 1) routeFix [routeNoWp] none).2 =
      .ok none :=
  c9_reroute_none_when_blocked_first_or_absent geoFix ⟨[], none, none, true⟩ 42
    (wpFix 1 1 1) routeFix [routeNoWp] (by decide) (Or.inl (by decide))

theorem spliceDestination_getLast (seed n_alt : Nat) (dp : Waypoint) (l : List Waypoint) :
    (spliceDestination seed n_alt dp l).getLast?.map (fun w => (w.latitude, w.longitude)) =
      some (dp.latitude, dp.longitude) := by
  unfold spliceDestination
  cases hl : l.getLast? with
  | none =>
    simp only [hl, Bool.false_eq_true, if_false, List.getLast?_concat]
    rfl
  | some lastW =>
    by_cases hc : lastW.latitude = dp.latitude ∧ lastW.longitude = dp.longitude
    · have hd : decide (lastW.latitude = dp.latitude ∧ lastW.longitude = dp.longitude) = true :=
        decide_eq_true hc
      simp only [hl, hd, if_true]
      simp [hc.1, hc.2]
    · have hd : decide (lastW.latitude = dp.latitude ∧ lastW.longitude = dp.longitude) = false :=
        decide_eq_false hc
      simp only [hl, hd, Bool.false_eq_true, if_false, List.getLast?_concat]
      rfl

theorem fitness_waypoints (geo : Geo) (a? : Option Aircraft) (ww dw : ℚ) (r : Route) :
    ∀ p, calculate_fitness_score geo a? ww dw r = .ok p → p.1.waypoints = r.waypoints := by
  have hw : (if r.distance ≤ 0 then (calculate_total_distance geo r).1 else r).waypoints =
      r.waypoints := by
    by_cases hd : r.distance ≤ 0 <;> simp [hd, calculate_total_distance]
  intro p
  unfold calculate_fitness_score
  by_cases h1 :
      (if r.distance ≤ 0 then (calculate_total_distance geo r).1 else r).weather_data.isEmpty
  · simp only [h1, if_true]
    intro h; injection h with h'; rw [← h']; exact hw
  · simp only [h1, Bool.false_eq_true, if_false]
    by_cases h2 :
        ((if r.distance ≤ 0 then (calculate_total_distance geo r).1 else r).weather_data.map
          (fun x => x.2)).length < 2
    · simp only [h2, if_true]
      intro h; injection h with h'; rw [← h']; exact hw
    · simp only [h2, if_false]
      cases a? <;> split <;> intro h <;>
        first
        | exact Except.noConfusion h
        | (injection h with h'; rw [← h']; exact hw)

theorem fuel_waypoints (geo : Geo) (a? : Option Aircraft) (r : Route) (wd : WeatherMap) :
    ∀ p, calculate_fuel_consumption geo a? r wd = .ok p → p.1.waypoints = r.waypoints := by
  intro p h
  unfold calculate_fuel_consumption at h
  split at h
  · exact Except.noConfusion h
  · split at h
    · exact Except.noConfusion h
    · injection h with h'; rw [← h']

theorem estimated_time_waypoints (geo : Geo) (a? : Option Aircraft) (r : Route) :
    ∀ p, calculate_estimated_time geo a? r = .ok p → p.1.waypoints = r.waypoints := by
  intro p h
  unfold calculate_estimated_time at h
  split at h
  · injection h with h'; rw [← h']
  · split at h
    · injection h with h'; rw [← h']
    · split at h
      · exact Except.noConfusion h
      · injection h with h'; rw [← h']

theorem spliceMetricsTail_waypoints (geo : Geo) (a? : Option Aircraft) (r2 : Route) :
    ∀ r', spliceMetricsTail geo a? r2 = .ok r' → r'.waypoints = r2.waypoints := by
  intro r' h
  unfold spliceMetricsTail at h
  split at h
  · split at h
    · exact Except.noConfusion h
    · next r3 fu heq2 =>
      split at h
      · exact Except.noConfusion h
      · next r4 ft heq3 =>
        injection h with h'
        rw [← h']
        show r4.waypoints = r2.waypoints
        have h4 : r4.waypoints = ({ r3 with fuel_consumption := fu } : Route).waypoints :=
          estimated_time_waypoints geo a? _ (r4, ft) heq3
        have h3 : r3.waypoints = r2.waypoints :=
          fuel_waypoints geo a? _ _ (r3, fu) heq2
        rw [h4]
        exact h3
  · split at h
    · injection h with h'; rw [← h']
    · injection h with h'; rw [← h']

theorem spliceMetrics_eq (geo : Geo) (a? : Option Aircraft) (cur r0 : Route) :
    spliceMetrics geo a? cur r0 =
      match calculate_fitness_score geo none 0.6 0.4 (calculate_total_distance geo r0).1 with
      | .error e => .error e
      | .ok (r2, _) =>
        spliceMetricsTail geo a?
          (if estTruthy cur.estimated_time = true then
            { r2 with estimated_time := cur.estimated_time } else r2) := rfl

theorem spliceMetrics_waypoints (geo : Geo) (a? : Option Aircraft) (cur r0 : Route) :
    ∀ r', spliceMetrics geo a? cur r0 = .ok r' → r'.waypoints = r0.waypoints := by
  intro r' h
  rw [spliceMetrics_eq] at h
  cases hfit : calculate_fitness_score geo none 0.6 0.4 (calculate_total_distance geo r0).1 with
  | error e => rw [hfit] at h; exact Except.noConfusion h
  | ok p =>
    rw [hfit] at h
    obtain ⟨r2, v⟩ := p
    have h2 : r2.waypoints = r0.waypoints := by
      have hfw := fitness_waypoints geo none 0.6 0.4
        (calculate_total_distance geo r0).1 (r2, v) hfit
      exact hfw
    have ht := spliceMetricsTail_waypoints geo a?
      (if estTruthy cur.estimated_time = true then
        { r2 with estimated_time := cur.estimated_time } else r2) r' h
    rw [ht]
    split <;> simpa using h2

theorem spliceMetricsTail_none_ok (geo : Geo) (r2 : Route) :
    ∃ r', spliceMetricsTail geo none r2 = .ok r' := by
  unfold spliceMetricsTail
  have hcond : ¬ ((none : Option Aircraft).isSome ∧ ¬ r2.weather_data.isEmpty) := by
    simp
  rw [if_neg hcond]
  by_cases he : ¬ estTruthy r2.estimated_time = true
  · simp only [he, if_true]; exact ⟨_, rfl⟩
  · simp only [he, if_false]; exact ⟨_, rfl⟩

theorem spliceMetrics_none_ok (geo : Geo) (cur r0 : Route) :
    ∃ r', spliceMetrics geo none cur r0 = .ok r' := by
  obtain ⟨p, hp⟩ := fitness_ok_no_aircraft geo 0.6 0.4 (calculate_total_distance geo r0).1
  obtain ⟨r2, v⟩ := p
  obtain ⟨r', hr⟩ := spliceMetricsTail_none_ok geo
    (if estTruthy cur.estimated_time = true then
      { r2 with estimated_time := cur.estimated_time } else r2)
  refine ⟨r', ?_⟩
  rw [spliceMetrics_eq, hp]
  exact hr

theorem create_rerouted_path_eq (geo : Geo) (aircraft? : Option Aircraft) (seed : Nat)
    (cur : Route) (bw cp : Waypoint) (alt : Route) (tw : Waypoint) (ti : Nat) :
    _create_rerouted_path geo aircraft? seed cur bw cp alt tw ti =
      match cur.waypoints.getLast? with
      | none => .error "IndexError: list index out of range"
      | some destProxy =>
        spliceMetrics geo aircraft? cur {
          id := seed,
          name := "Rerouted_" ++ cur.name,
          origin := cur.origin,
          destination := cur.destination,
          waypoints := spliceDestination seed (spliceAssembly geo seed cur bw cp alt ti).2
            destProxy (spliceAssembly geo seed cur bw cp alt ti).1,
          path_type := "rerouted_" ++ alt.path_type,
          optimization_method := "ppo",
          distance := 0, fitness_score := 0, fuel_consumption := 0,
          estimated_time := some 0, leg_distances := [], leg_times := [],
          weather_data :=
            if ¬ cur.weather_data.isEmpty then cur.weather_data
            else if ¬ alt.weather_data.isEmpty then alt.weather_data
            else [],
          reroute_history :=
            match cur.reroute_history with
            | some h => if h.isEmpty then some [(bw.name, alt.path_type)]
                        else some (h ++ [(bw.name, alt.path_type)])
            | none => some [(bw.name, alt.path_type)] } := rfl

theorem create_no_aircraft_ok (geo : Geo) (seed : Nat) (cur : Route) (bw cp : Waypoint)
    (alt : Route) (tw : Waypoint) (ti : Nat) (dp : Waypoint)
    (h : cur.waypoints.getLast? = some dp) :
    ∃ r', _create_rerouted_path geo none seed cur bw cp alt tw ti = .ok r' := by
  rw [create_rerouted_path_eq, h]
  exact spliceMetrics_none_ok geo cur _

/-- **C3 (amended).** For every spliced route produced by the path splicer, the
final waypoint's coordinates equal the coordinates of the ORIGINAL route's LAST
WAYPOINT — the deep copy of `current_route.waypoints[-1]` that the source uses
as its destination stand-in (equal to the declared destination only when the
input route already ends at its destination): if after assembly the last
waypoint's coordinates do not match that stand-in's coordinates, a copy with a
fresh id and the next sequential order is appended. -/
theorem c3_spliced_route_ends_at_last_original_waypoint (geo : Geo)
    (aircraft? : Option Aircraft) (seed : Nat) (cur : Route) (bw cp : Waypoint)
    (alt : Route) (tw : Waypoint) (ti : Nat) (r' : Route)
    (h : _create_rerouted_path geo aircraft? seed cur bw cp alt tw ti = .ok r') :
    r'.waypoints.getLast?.map (fun w => (w.latitude, w.longitude)) =
      cur.waypoints.getLast?.map (fun w => (w.latitude, w.longitude)) := by
  rw [create_rerouted_path_eq] at h
  cases hlast : cur.waypoints.getLast? with
  | none => rw [hlast] at h; exact Except.noConfusion h
  | some dp =>
    rw [hlast] at h
    have hw := spliceMetrics_waypoints geo aircraft? cur _ r' h
    rw [hw]
    exact spliceDestination_getLast seed _ dp _

/-- **C3 counterexample.** A concrete route whose last waypoint (3,3) differs
from its declared destination (3,4): the spliced route ends at (3,3), so the
final waypoint's coordinates do NOT equal the declared destination's. -/
theorem c3_counterexample :
    Except.map (fun r => r.waypoints.getLast?.map (fun w => (w.latitude, w.longitude)))
        (_create_rerouted_path geoFix none 400 routeFix (wpFix 2 2 2) (wpFix 1 1 1)
          altFix (wpFix 7 5 5) 0) =
      .ok (some ((3 : ℚ), (3 : ℚ))) ∧
    routeFix.destination.map (fun a => (a.latitude, a.longitude)) = some ((3 : ℚ), (4 : ℚ)) ∧
    (((3 : ℚ), (3 : ℚ)) : ℚ × ℚ) ≠ ((3 : ℚ), (4 : ℚ)) := by
  obtain ⟨r', hok⟩ := create_no_aircraft_ok geoFix 400 routeFix (wpFix 2 2 2)
    (wpFix 1 1 1) altFix (wpFix 7 5 5) 0 (wpFix 3 3 3) rfl
  have hco := c3_spliced_route_ends_at_last_original_waypoint geoFix none 400 routeFix
    (wpFix 2 2 2) (wpFix 1 1 1) altFix (wpFix 7 5 5) 0 r' hok
  refine ⟨?_, rfl, by norm_num⟩
  rw [hok]
  simp only [Except.map]
  rw [hco]
  rfl

/-- **C3 witness.** The amended destination guarantee exercised at a concrete
input (blocked waypoint absent from the route, so the no-detour branch runs):
the spliced route still ends at the original route's last waypoint (3,3). -/
theorem c3_spliced_route_ends_witness :
    Except.map (fun r => r.waypoints.getLast?.map (fun w => (w.latitude, w.longitude)))
        (_create_rerouted_path geoFix none 500 routeFix (wpFix 9 8 8) (wpFix 1 1 1)
          altFix (wpFix 7 5 5) 1) =
      .ok (some ((3 : ℚ), (3 : ℚ))) := by
  obtain ⟨r', hok⟩ := create_no_aircraft_ok geoFix 500 routeFix (wpFix 9 8 8)
    (wpFix 1 1 1) altFix (wpFix 7 5 5) 1 (wpFix 3 3 3) rfl
  have hco := c3_spliced_route_ends_at_last_original_waypoint geoFix none 500 routeFix
    (wpFix 9 8 8) (wpFix 1 1 1) altFix (wpFix 7 5 5) 1 r' hok
  rw [hok]
  simp only [Except.map]
  rw [hco]
  rfl

theorem map_set_status {β : Type} (f : Waypoint → β)
    (hf : ∀ w s, f { w with status := s } = f w) (l : List Waypoint) (i : Nat)
    (s : WaypointStatus) :
    (l.set i { (l.get? i).getD default with status := s }).map f = l.map f := by
  induction l generalizing i with
  | nil => rfl
  | cons a t ih =>
    cases i with
    | zero => simp [List.set, hf]
    | succ n =>
      simp only [List.set, List.map]
      exact congrArg (f a :: ·) (ih n)

theorem markBlocked_core (l : List Waypoint) (i : Nat) :
    (markBlocked l i).map wpCore = l.map wpCore :=
  map_set_status wpCore (fun _ _ => rfl) l i _

theorem markActive_core (l : List Waypoint) (i : Nat) :
    (markActive l i).map wpCore = l.map wpCore :=
  map_set_status wpCore (fun _ _ => rfl) l i _

theorem markBlocked_ids (l : List Waypoint) (i : Nat) :
    (markBlocked l i).map (fun w => w.id) = l.map (fun w => w.id) :=
  map_set_status (fun w => w.id) (fun _ _ => rfl) l i _

theorem markActive_ids (l : List Waypoint) (i : Nat) :
    (markActive l i).map (fun w => w.id) = l.map (fun w => w.id) :=
  map_set_status (fun w => w.id) (fun _ _ => rfl) l i _

theorem markBlocked_length (l : List Waypoint) (i : Nat) :
    (markBlocked l i).length = l.length := by
  unfold markBlocked; exact List.length_set l _ _

theorem markActive_length (l : List Waypoint) (i : Nat) :
    (markActive l i).length = l.length := by
  unfold markActive; exact List.length_set l _ _

theorem markBlocked_get (l : List Waypoint) (i : Nat) (h : i < l.length) :
    ((markBlocked l i).get? i).map (fun w => w.status) = some WaypointStatus.blocked := by
  unfold markBlocked
  rw [List.get?_eq_getElem?, List.getElem?_set_eq_of_lt _ h]
  rfl

theorem findIdx?_spec {α : Type} {p : α → Bool} {l : List α} {i : Nat}
    (h : l.findIdx? p = some i) :
    i < l.length ∧ ∃ a, l.get? i = some a ∧ p a = true := by
  induction l generalizing i with
  | nil => exact Option.noConfusion h
  | cons x xs ih =>
    rw [List.findIdx?_cons, List.findIdx?_succ] at h
    by_cases hp : p x
    · simp only [hp, if_true] at h
      injection h with h'
      subst h'
      exact ⟨Nat.succ_pos _, x, rfl, hp⟩
    · simp only [hp, Bool.false_eq_true, if_false] at h
      cases hfi : xs.findIdx? p with
      | none => rw [hfi] at h; exact Option.noConfusion h
      | some j =>
        rw [hfi] at h
        injection h with h'
        subst h'
        obtain ⟨hlt, a, ha, hpa⟩ := ih hfi
        exact ⟨Nat.succ_lt_succ hlt, a, ha, hpa⟩

theorem adjusterStep_ok_shape (gen : Airport → Option PointRef → ExcludedArea → List Route)
    (seed : Nat) (r : Route) (bidx : Nat) (wps2 : List Waypoint) (cands : List Route)
    (h : adjusterStep gen seed r bidx = .ok (wps2, cands)) :
    wps2 = (if bidx > 0 then markActive (markBlocked r.waypoints bidx) (bidx - 1)
            else markBlocked r.waypoints bidx) := by
  unfold adjusterStep at h
  split at h
  · next hpos =>
    rw [if_pos hpos]
    injection h with h'
    exact (congrArg Prod.fst h').symm
  · next hpos =>
    rw [if_neg hpos]
    split at h
    · exact Except.noConfusion h
    · injection h with h'
      exact (congrArg Prod.fst h').symm

theorem adjusterStep_core (gen : Airport → Option PointRef → ExcludedArea → List Route)
    (seed : Nat) (r : Route) (bidx : Nat) (wps2 : List Waypoint) (cands : List Route)
    (h : adjusterStep gen seed r bidx = .ok (wps2, cands)) :
    wps2.map wpCore = r.waypoints.map wpCore := by
  rw [adjusterStep_ok_shape gen seed r bidx wps2 cands h]
  by_cases hb : bidx > 0
  · rw [if_pos hb, markActive_core, markBlocked_core]
  · rw [if_neg hb, markBlocked_core]

theorem adjusterStep_ids (gen : Airport → Option PointRef → ExcludedArea → List Route)
    (seed : Nat) (r : Route) (bidx : Nat) (wps2 : List Waypoint) (cands : List Route)
    (h : adjusterStep gen seed r bidx = .ok (wps2, cands)) :
    wps2.map (fun w => w.id) = r.waypoints.map (fun w => w.id) := by
  rw [adjusterStep_ok_shape gen seed r bidx wps2 cands h]
  by_cases hb : bidx > 0
  · rw [if_pos hb, markActive_ids, markBlocked_ids]
  · rw [if_neg hb, markBlocked_ids]

theorem adjusterStep_status (gen : Airport → Option PointRef → ExcludedArea → List Route)
    (seed : Nat) (r : Route) (bidx : Nat) (wps2 : List Waypoint) (cands : List Route)
    (h : adjusterStep gen seed r bidx = .ok (wps2, cands))
    (hlt : bidx < r.waypoints.length) :
    (wps2.get? bidx).map (fun w => w.status) = some WaypointStatus.blocked := by
  rw [adjusterStep_ok_shape gen seed r bidx wps2 cands h]
  by_cases hb : bidx > 0
  · rw [if_pos hb]
    unfold markActive
    rw [List.get?_set_ne _ _ (Nat.ne_of_lt (Nat.sub_lt hb Nat.one_pos))]
    exact markBlocked_get r.waypoints bidx hlt
  · rw [if_neg hb]
    exact markBlocked_get r.waypoints bidx hlt

/-- **C1 (amended).** When `handle_blocked_waypoint` fails after the waypoint
lookup succeeded because the optimizer produced no usable bypass segment, the
call returns `None` and the stored route's waypoint LIST is unchanged — same
ids, names, coordinates and orders, with the single list write-back happening
only at the commit step — but the blocked waypoint's status has been set to
BLOCKED (and its predecessor's to ACTIVE) in place, and these status changes
persist in the registry despite the failure. -/
theorem c1_failed_bypass_keeps_list_but_marks_statuses
    (gen : Airport → Option PointRef → ExcludedArea → List Route)
    (opt : List Route → Option Route) (seed : Nat) (reg : Registry)
    (rid wid : Nat) (r : Route) (bidx : Nat) (wps2 : List Waypoint) (cands : List Route)
    (h1 : List.lookup rid reg = some r)
    (h2 : r.waypoints.findIdx? (fun w => w.id == wid) = some bidx)
    (h3 : adjusterStep gen seed r bidx = .ok (wps2, cands))
    (h4 : opt cands = none ∨ ∃ seg, opt cands = some seg ∧ seg.waypoints = []) :
    handle_blocked_waypoint gen opt seed reg rid wid =
      (updateReg reg rid { r with waypoints := wps2 }, .ok none) ∧
    wps2.map wpCore = r.waypoints.map wpCore ∧
    (wps2.get? bidx).map (fun w => w.status) = some WaypointStatus.blocked := by
  refine ⟨?_, adjusterStep_core gen seed r bidx wps2 cands h3,
    adjusterStep_status gen seed r bidx wps2 cands h3 (findIdx?_spec h2).1⟩
  unfold handle_blocked_waypoint
  simp only [h1, h2, h3]
  unfold adjusterFinish
  rcases h4 with h4 | ⟨seg, h4, hseg⟩
  · simp only [h4]
  · simp only [h4, hseg, List.isEmpty_nil, if_true]

/-- **C1 counterexample.** A registered three-waypoint route whose second
waypoint is reported blocked while the optimizer yields no bypass: the call
returns `None`, yet the stored route is NOT left untouched — its waypoint
statuses become `[ACTIVE, BLOCKED, PENDING]` where they were all `PENDING`. -/
theorem c1_counterexample :
    (handle_blocked_waypoint genFix optNone 7 regFix 100 2).2 = .ok none ∧
    ((List.lookup 100 (handle_blocked_waypoint genFix optNone 7 regFix 100 2).1).map
        (fun r => r.waypoints.map (fun w => w.status))) =
      some [WaypointStatus.active, WaypointStatus.blocked, WaypointStatus.pending] ∧
    routeFix.waypoints.map (fun w => w.status) =
      [WaypointStatus.pending, WaypointStatus.pending, WaypointStatus.pending] ∧
    List.lookup 100 (handle_blocked_waypoint genFix optNone 7 regFix 100 2).1 ≠
      some routeFix := by
  refine ⟨rfl, rfl, rfl, ?_⟩
  intro hc
  have h3 : ((List.lookup 100 (handle_blocked_waypoint genFix optNone 7 regFix 100 2).1).map
      (fun r => r.waypoints.map (fun w => w.status))) =
      some [WaypointStatus.active, WaypointStatus.blocked, WaypointStatus.pending] := rfl
  rw [hc] at h3
  revert h3
  decide

/-- **C1 witness.** The amended statement at the concrete fixture registry. -/
theorem c1_failed_bypass_witness :
    handle_blocked_waypoint genFix optNone 7 regFix 100 2 =
      (updateReg regFix 100
        { routeFix with waypoints := markActive (markBlocked routeFix.waypoints 1) 0 },
       .ok none) ∧
    (markActive (markBlocked routeFix.waypoints 1) 0).map wpCore =
      routeFix.waypoints.map wpCore ∧
    ((markActive (markBlocked routeFix.waypoints 1) 0).get? 1).map (fun w => w.status) =
      some WaypointStatus.blocked :=
  c1_failed_bypass_keeps_list_but_marks_statuses genFix optNone 7 regFix 100 2 routeFix 1
    (markActive (markBlocked routeFix.waypoints 1) 0) [] rfl rfl rfl (Or.inl rfl)

theorem dropLast_eq_nil_of_le_one {α : Type} {l : List α} (h : l.length ≤ 1) :
    l.dropLast = [] := by
  cases l with
  | nil => rfl
  | cons a t =>
    cases t with
    | nil => rfl
    | cons b u => simp at h

theorem interior_eq_nil_of_short {α : Type} {l : List α} (h : ¬ l.length > 2) :
    (l.drop 1).dropLast = [] := by
  apply dropLast_eq_nil_of_le_one
  rw [List.length_drop]
  omega

theorem adjusterFinish_commit (opt : List Route → Option Route) (reg : Registry)
    (rid : Nat) (route2 : Route) (bidx : Nat) (cands : List Route) (seg : Route)
    (h4 : opt cands = some seg) (h5 : seg.waypoints ≠ []) :
    adjusterFinish opt reg rid route2 bidx cands =
      (updateReg reg rid { route2 with waypoints :=
          (route2.waypoints.take bidx ++ (seg.waypoints.drop 1).dropLast ++
            route2.waypoints.drop (bidx + 1)) },
       .ok (some { route2 with waypoints :=
          (route2.waypoints.take bidx ++ (seg.waypoints.drop 1).dropLast ++
            route2.waypoints.drop (bidx + 1)) })) := by
  unfold adjusterFinish
  rw [h4]
  have hne : seg.waypoints.isEmpty = false := by
    cases hw : seg.waypoints with
    | nil => exact absurd hw h5
    | cons a t => rfl
  simp only [hne, Bool.false_eq_true, if_false]
  have e1 : (if bidx > 0 then route2.waypoints.take bidx else []) =
      route2.waypoints.take bidx := by
    by_cases hb : bidx > 0
    · rw [if_pos hb]
    · rw [if_neg hb]
      have : bidx = 0 := by omega
      rw [this, List.take_zero]
  have e2 : (if seg.waypoints.length > 2 then (seg.waypoints.drop 1).dropLast else []) =
      (seg.waypoints.drop 1).dropLast := by
    by_cases hl : seg.waypoints.length > 2
    · rw [if_pos hl]
    · rw [if_neg hl, interior_eq_nil_of_short hl]
  have e3 : (if bidx + 1 < route2.waypoints.length then route2.waypoints.drop (bidx + 1)
      else []) = route2.waypoints.drop (bidx + 1) := by
    by_cases hl : bidx + 1 < route2.waypoints.length
    · rw [if_pos hl]
    · rw [if_neg hl, List.drop_eq_nil_of_le (by omega)]
  rw [e1, e2, e3]

theorem count_at_most_one_not_mem_sides {l : List Nat} {i x : Nat}
    (hget : l.get? i = some x) (hcount : l.count x ≤ 1) :
    x ∉ l.take i ∧ x ∉ l.drop (i + 1) := by
  have hlt : i < l.length := by
    by_contra hge
    rw [List.get?_eq_none.mpr (by omega)] at hget
    exact Option.noConfusion hget
  have hx : l[i] = x := by
    have := List.get?_eq_getElem? l i
    rw [this, List.getElem?_eq_getElem hlt] at hget
    injection hget
  have hdec : l = l.take i ++ x :: l.drop (i + 1) := by
    conv_lhs => rw [← List.take_append_drop i l]
    rw [List.drop_eq_getElem_cons hlt, hx]
  rw [hdec, List.count_append, List.count_cons_self] at hcount
  constructor
  · exact (List.count_eq_zero).mp (by omega)
  · exact (List.count_eq_zero).mp (by omega)

/-- **C8.** On a successful `handle_blocked_waypoint`, the committed and
returned route's waypoint sequence is exactly the (status-marked) original
waypoints before the blocked one, then the bypass segment's interior waypoints
(its synthetic first and last excluded), then the original waypoints after the
blocked one; the blocked waypoint's id never appears in the result (when it
occurred once in the route and not in the segment interior), and the route's
reroute history is unchanged. -/
theorem c8_successful_bypass_commit
    (gen : Airport → Option PointRef → ExcludedArea → List Route)
    (opt : List Route → Option Route) (seed : Nat) (reg : Registry)
    (rid wid : Nat) (r : Route) (bidx : Nat) (wps2 : List Waypoint) (cands : List Route)
    (seg : Route)
    (h1 : List.lookup rid reg = some r)
    (h2 : r.waypoints.findIdx? (fun w => w.id == wid) = some bidx)
    (h3 : adjusterStep gen seed r bidx = .ok (wps2, cands))
    (h4 : opt cands = some seg)
    (h5 : seg.waypoints ≠ [])
    (h6 : (r.waypoints.map (fun w => w.id)).count wid ≤ 1)
    (h7 : wid ∉ (seg.waypoints.drop 1).dropLast.map (fun w => w.id)) :
    handle_blocked_waypoint gen opt seed reg rid wid =
      (updateReg reg rid { r with waypoints :=
          (wps2.take bidx ++ (seg.waypoints.drop 1).dropLast ++ wps2.drop (bidx + 1)) },
       .ok (some { r with waypoints :=
          (wps2.take bidx ++ (seg.waypoints.drop 1).dropLast ++ wps2.drop (bidx + 1)) })) ∧
    wid ∉ (wps2.take bidx ++ (seg.waypoints.drop 1).dropLast ++
        wps2.drop (bidx + 1)).map (fun w => w.id) ∧
    ({ r with waypoints :=
        (wps2.take bidx ++ (seg.waypoints.drop 1).dropLast ++ wps2.drop (bidx + 1)) }
      : Route).reroute_history = r.reroute_history := by
  refine ⟨?_, ?_, rfl⟩
  · unfold handle_blocked_waypoint
    simp only [h1, h2, h3]
    exact adjusterFinish_commit opt reg rid _ bidx cands seg h4 h5
  · have hids := adjusterStep_ids gen seed r bidx wps2 cands h3
    obtain ⟨hlt, a, ha, hpa⟩ := findIdx?_spec h2
    have hget : (r.waypoints.map (fun w => w.id)).get? bidx = some wid := by
      rw [List.get?_map, ha]
      have hb : (a.id == wid) = true := hpa
      exact congrArg some (eq_of_beq hb)
    obtain ⟨hnt, hnd⟩ := count_at_most_one_not_mem_sides hget h6
    intro hmem
    rw [List.map_append, List.map_append] at hmem
    rcases List.mem_append.mp hmem with hmem | hmem
    · rcases List.mem_append.mp hmem with hmem | hmem
      · rw [List.map_take, hids] at hmem
        exact hnt hmem
      · exact h7 hmem
    · rw [List.map_drop, hids] at hmem
      exact hnd hmem

/-- **C8 witness.** The success case at the fixture registry: blocked waypoint
2 of three, a three-waypoint bypass segment, interior waypoint id 51; the
committed sequence is prefix + interior + suffix with the blocked id gone and
the history untouched. -/
theorem c8_successful_bypass_witness :
    handle_blocked_waypoint genFix optSeg 7 regFix 100 2 =
      (updateReg regFix 100 { routeFix with waypoints :=
          ((markActive (markBlocked routeFix.waypoints 1) 0).take 1 ++
            (segFix.waypoints.drop 1).dropLast ++
            (markActive (markBlocked routeFix.waypoints 1) 0).drop 2) },
       .ok (some { routeFix with waypoints :=
          ((markActive (markBlocked routeFix.waypoints 1) 0).take 1 ++
            (segFix.waypoints.drop 1).dropLast ++
            (markActive (markBlocked routeFix.waypoints 1) 0).drop 2) })) ∧
    2 ∉ ((markActive (markBlocked routeFix.waypoints 1) 0).take 1 ++
        (segFix.waypoints.drop 1).dropLast ++
        (markActive (markBlocked routeFix.waypoints 1) 0).drop 2).map (fun w => w.id) ∧
    ({ routeFix with waypoints :=
        ((markActive (markBlocked routeFix.waypoints 1) 0).take 1 ++
          (segFix.waypoints.drop 1).dropLast ++
          (markActive (markBlocked routeFix.waypoints 1) 0).drop 2) }
      : Route).reroute_history = routeFix.reroute_history :=
  c8_successful_bypass_commit genFix optSeg 7 regFix 100 2 routeFix 1
    (markActive (markBlocked routeFix.waypoints 1) 0) [] segFix rfl rfl rfl rfl
    (by decide) (by decide) (by decide)

theorem mem_stableInsert {α : Type} (key : α → ℚ) (x a : α) (l : List α) :
    a ∈ stableInsert key x l ↔ a = x ∨ a ∈ l := by
  induction l with
  | nil => simp [stableInsert]
  | cons y ys ih =>
    unfold stableInsert
    by_cases hk : key y < key x
    · rw [if_pos hk]
      simp only [List.mem_cons, ih]
      tauto
    · rw [if_neg hk]
      simp only [List.mem_cons]

theorem mem_stableSortByKey {α : Type} (key : α → ℚ) (a : α) (l : List α) :
    a ∈ stableSortByKey key l ↔ a ∈ l := by
  induction l with
  | nil => simp [stableSortByKey]
  | cons x xs ih =>
    unfold stableSortByKey
    rw [mem_stableInsert, ih, List.mem_cons]

theorem evalEntry_some_not_used (geo : Geo) (st : PPORerouter) (cur : Route)
    (bw pos : Waypoint) (seed : Nat) (alt : Route) (e : ScoreEntry)
    (h : evalEntry geo st cur bw pos seed alt = .ok (some e)) :
    e.route.path_type ∉ st.used_route_types ∧ e.route.path_type ≠ "direct" := by
  unfold evalEntry at h
  by_cases hskip : (alt.path_type ∈ st.used_route_types ∨ alt.path_type = "direct")
  · rw [if_pos hskip] at h
    injection h with h'
    exact Option.noConfusion h'
  · rw [if_neg hskip] at h
    push_neg at hskip
    split at h
    · injection h with h'; exact Option.noConfusion h'
    · split at h
      · exact Except.noConfusion h
      · split at h
        · exact Except.noConfusion h
        · injection h with h'
          injection h' with h''
          rw [← h'']
          exact hskip

theorem evalLoop_entries_not_used (geo : Geo) (st : PPORerouter) (cur : Route)
    (bw pos : Waypoint) :
    ∀ (alts : List Route) (seed : Nat) (l : List ScoreEntry),
      evalLoop geo st cur bw pos seed alts = .ok l →
      ∀ e ∈ l, e.route.path_type ∉ st.used_route_types ∧ e.route.path_type ≠ "direct" := by
  intro alts
  induction alts with
  | nil =>
    intro seed l h e he
    unfold evalLoop at h
    injection h with h'
    subst h'
    exact absurd he (List.not_mem_nil e)
  | cons alt rest ih =>
    intro seed l h e he
    unfold evalLoop at h
    cases hen : evalEntry geo st cur bw pos seed alt with
    | error err => rw [hen] at h; exact Except.noConfusion h
    | ok o =>
      rw [hen] at h
      cases o with
      | none => exact ih seed l h e he
      | some entry =>
        cases hrest : evalLoop geo st cur bw pos (seed + alt.waypoints.length + 2) rest with
        | error err => rw [hrest] at h; exact Except.noConfusion h
        | ok entries =>
          rw [hrest] at h
          injection h with h'
          subst h'
          rcases List.mem_cons.mp he with he | he
          · subst he
            exact evalEntry_some_not_used geo st cur bw pos seed alt e hen
          · exact ih _ entries hrest e he

/-- **C5 (amended).** The candidate evaluator discards every alternative whose
path-type is in the used set or equals `"direct"` — where the used set, as
`reroute` derives it, is the list of alternative path-types recorded in the
current route's reroute history when that history is non-empty, and the
singleton of the current route's own path-type only when the history is
missing or empty. In particular, for a current route with an empty history and
exactly one alternative whose path-type equals the current route's path-type,
the evaluator returns zero candidates. -/
theorem c5_evaluator_discards_used_path_types :
    (∀ (geo : Geo) (st : PPORerouter) (cur : Route) (bw pos : Waypoint) (seed : Nat)
        (alts : List Route) (l : List ScoreEntry),
      evaluate_alternatives geo st cur bw pos seed alts = .ok l →
      ∀ e ∈ l, e.route.path_type ∉ st.used_route_types ∧ e.route.path_type ≠ "direct") ∧
    (∀ (geo : Geo) (ws : Option (Route → WeatherMap)) (ac : Option Aircraft) (cf : Bool)
        (cur : Route) (bw pos : Waypoint) (seed : Nat) (alt : Route),
      (cur.reroute_history = none ∨ cur.reroute_history = some []) →
      alt.path_type = cur.path_type →
      evaluate_alternatives geo ⟨resetUsedRouteTypes cur, ws, ac, cf⟩ cur bw pos seed [alt] =
        .ok []) := by
  constructor
  · intro geo st cur bw pos seed alts l h e he
    unfold evaluate_alternatives at h
    cases hl : evalLoop geo st cur bw pos seed alts with
    | error err => rw [hl] at h; exact Except.noConfusion h
    | ok l0 =>
      rw [hl] at h
      injection h with h'
      subst h'
      exact evalLoop_entries_not_used geo st cur bw pos alts seed l0 hl e
        ((mem_stableSortByKey _ e l0).mp he)
  · intro geo ws ac cf cur bw pos seed alt hh halt
    have hused : resetUsedRouteTypes cur = [cur.path_type] := by
      rcases hh with hh | hh <;> simp [resetUsedRouteTypes, hh]
    have hentry : evalEntry geo ⟨resetUsedRouteTypes cur, ws, ac, cf⟩ cur bw pos seed alt =
        .ok none := by
      unfold evalEntry
      rw [if_pos]
      exact Or.inl (by rw [hused, halt]; exact List.mem_singleton.mpr rfl)
    unfold evaluate_alternatives evalLoop
    rw [hentry]
    rfl

/-- **C5 witness.** The amended scenario at concrete values: fresh current
route (`"direct"`, empty history), one alternative with the same path-type —
zero candidates. -/
theorem c5_evaluator_witness :
    evaluate_alternatives geoFix ⟨resetUsedRouteTypes routeFix, none, none, true⟩ routeFix
        (wpFix 2 2 2) (wpFix 1 1 1) 5 [routeNoWp] = .ok [] :=
  c5_evaluator_discards_used_path_types.2 geoFix none none true routeFix (wpFix 2 2 2)
    (wpFix 1 1 1) 5 routeNoWp (Or.inl rfl) rfl

/-- **C5 counterexample.** A current route with non-empty reroute history: the
used set is the history's path-types only (`["left"]`), so its own path-type
is NOT in the used set, and an alternative sharing that very path-type
survives — one candidate is returned where the claim demands zero. -/
theorem c5_counterexample :
    resetUsedRouteTypes curC5 = ["left"] ∧
    curC5.path_type = "special" ∧ altFix.path_type = "special" ∧
    (match evaluate_alternatives geoFix stC5 curC5 (wpFix 2 2 2) (wpFix 1 1 1) 900 [altFix] with
     | .ok l => l.length
     | .error _ => 0) = 1 := by
  refine ⟨rfl, rfl, rfl, ?_⟩
  obtain ⟨r', hok⟩ := create_no_aircraft_ok geoFix 900 curC5 (wpFix 2 2 2) (wpFix 1 1 1)
    altFix (wpFix 7 5 5) 0 (wpFix 3 3 3) rfl
  have hn : nearestWaypoint geoFix (wpFix 1 1 1) altFix.waypoints =
      some (wpFix 7 5 5, 0,
        geoFix.dist (wpFix 1 1 1).latitude (wpFix 1 1 1).longitude
          (wpFix 7 5 5).latitude (wpFix 7 5 5).longitude) := rfl
  have hac : stC5.aircraft = none := rfl
  have haw : evalAware stC5 = false := rfl
  have hentry : ∃ e, evalEntry geoFix stC5 curC5 (wpFix 2 2 2) (wpFix 1 1 1) 900 altFix =
      .ok (some e) := by
    unfold evalEntry
    rw [if_neg (by decide)]
    simp only [hn, hac, hok, haw, Bool.false_eq_true, if_false]
    exact ⟨_, rfl⟩
  obtain ⟨e, he⟩ := hentry
  have hloop : evalLoop geoFix stC5 curC5 (wpFix 2 2 2) (wpFix 1 1 1) 900 [altFix] =
      .ok [e] := by
    unfold evalLoop
    rw [he]
    rfl
  have heval : evaluate_alternatives geoFix stC5 curC5 (wpFix 2 2 2) (wpFix 1 1 1) 900
      [altFix] = .ok [e] := by
    unfold evaluate_alternatives
    rw [hloop]
    rfl
  rw [heval]
  rfl

theorem optLE_refl : ∀ o : Option ℚ, optLE o o
  | none => trivial
  | some _ => le_refl _

theorem forall₂_map_of_forall {α β : Type} {R : β → β → Prop} (f g : α → β) :
    ∀ l : List α, (∀ x ∈ l, R (f x) (g x)) → List.Forall₂ R (l.map f) (l.map g) := by
  intro l h
  induction l with
  | nil => exact List.Forall₂.nil
  | cons a t ih =>
    exact List.Forall₂.cons (h a (List.mem_cons_self a t))
      (ih (fun x hx => h x (List.mem_cons_of_mem a hx)))

theorem windFactorLoop_mono (p : ℚ) (hp0 : 0 ≤ p) (hp1 : p ≤ 1) :
    ∀ {l l' : List (Option ℚ)}, List.Forall₂ optLE l l' →
      ∀ {wf wf' : ℚ}, wf ≤ wf' → windFactorLoop p wf l ≤ windFactorLoop p wf' l' := by
  intro l l' h
  induction h with
  | nil => intro wf wf' hw; simpa [windFactorLoop] using hw
  | @cons a b as bs hab htail ih =>
    intro wf wf' hw
    cases a with
    | none =>
      cases b with
      | none =>
        show windFactorLoop p wf as ≤ windFactorLoop p wf' bs
        exact ih hw
      | some y => exact hab.elim
    | some x =>
      cases b with
      | none => exact hab.elim
      | some y =>
        show windFactorLoop p (wf * (1 - p) + x * p) as ≤
          windFactorLoop p (wf' * (1 - p) + y * p) bs
        apply ih
        have hx : x ≤ y := hab
        nlinarith [mul_le_mul_of_nonneg_right hw (by linarith : (0:ℚ) ≤ 1 - p),
          mul_le_mul_of_nonneg_right hx hp0]

theorem fuel_ok_value (geo : Geo) (ac : Aircraft) (r : Route) (wd : WeatherMap)
    (h : ac.cruise_speed_kmh ≠ 0) :
    calculate_fuel_consumption geo (some ac) r wd =
      .ok ({ r with fuel_consumption := fuelValue geo ac r wd }, fuelValue geo ac r wd) := by
  simp only [calculate_fuel_consumption, pydiv, fuelValue]
  rw [if_neg h]

theorem fuelValue_mono (geo : Geo) (ac : Aircraft) (r : Route) (wd wd' : WeatherMap)
    (hspeed : 0 < ac.cruise_speed_kmh) (hrate : 0 ≤ ac.fuel_consumption_rate_kg_hr)
    (hdist : 0 ≤ r.distance)
    (hseg : ∀ j ∈ List.range (r.waypoints.length - 1),
      optLE (segWindFactor geo r.waypoints wd j) (segWindFactor geo r.waypoints wd' j)) :
    fuelValue geo ac r wd ≤ fuelValue geo ac r wd' := by
  unfold fuelValue
  have hbase : 0 ≤ r.distance / ac.cruise_speed_kmh * ac.fuel_consumption_rate_kg_hr :=
    mul_nonneg (div_nonneg hdist hspeed.le) hrate
  have hwf : windFactorLoop (1 / ((r.waypoints.length : ℚ) - 1)) 1
        ((List.range (r.waypoints.length - 1)).map (segWindFactor geo r.waypoints wd)) ≤
      windFactorLoop (1 / ((r.waypoints.length : ℚ) - 1)) 1
        ((List.range (r.waypoints.length - 1)).map (segWindFactor geo r.waypoints wd')) := by
    rcases Nat.eq_zero_or_pos (r.waypoints.length - 1) with h0 | hpos
    · rw [h0]
      exact le_refl _
    · have h2 : 2 ≤ r.waypoints.length := by omega
      have h1 : (1 : ℚ) ≤ (r.waypoints.length : ℚ) - 1 := by
        have : (2 : ℚ) ≤ (r.waypoints.length : ℚ) := by exact_mod_cast h2
        linarith
      have hp0 : (0 : ℚ) ≤ 1 / ((r.waypoints.length : ℚ) - 1) :=
        le_of_lt (by positivity)
      have hp1 : 1 / ((r.waypoints.length : ℚ) - 1) ≤ 1 :=
        (div_le_one (by linarith)).mpr h1
      exact windFactorLoop_mono _ hp0 hp1
        (forall₂_map_of_forall _ _ _ hseg) (le_refl 1)
  have hmax : max (0.3 : ℚ)
        (windFactorLoop (1 / ((r.waypoints.length : ℚ) - 1)) 1
          ((List.range (r.waypoints.length - 1)).map (segWindFactor geo r.waypoints wd))) ≤
      max (0.3 : ℚ)
        (windFactorLoop (1 / ((r.waypoints.length : ℚ) - 1)) 1
          ((List.range (r.waypoints.length - 1)).map (segWindFactor geo r.waypoints wd'))) :=
    max_le_max (le_refl _) hwf
  have := mul_le_mul_of_nonneg_left hmax hbase
  nlinarith [this]

theorem segWindFactor_congr (geo : Geo) (wps : List Waypoint) (wd wd' : WeatherMap)
    (j : Nat)
    (h : List.lookup ("waypoint_" ++ toString j) wd =
      List.lookup ("waypoint_" ++ toString j) wd') :
    segWindFactor geo wps wd j = segWindFactor geo wps wd' j := by
  unfold segWindFactor
  rw [h]

theorem segWindFactor_headwind_le (geo : Geo) (wps : List Waypoint) (wd wd' : WeatherMap)
    (i : Nat) (w w' : WeatherSample)
    (hw : List.lookup ("waypoint_" ++ toString i) wd = some w)
    (hw' : List.lookup ("waypoint_" ++ toString i) wd' = some w')
    (hdir : wget w "wind_direction_10m" 0 = wget w' "wind_direction_10m" 0)
    (hang : legWindAngle geo wps w i ≤ 90)
    (hcos : 0 ≤ geo.cosDeg (legWindAngle geo wps w i))
    (hss : wget w "wind_speed_10m" 0 ≤ wget w' "wind_speed_10m" 0) :
    optLE (segWindFactor geo wps wd i) (segWindFactor geo wps wd' i) := by
  have hang' : legWindAngle geo wps w' i = legWindAngle geo wps w i := by
    unfold legWindAngle
    rw [hdir]
  simp only [segWindFactor, hw, hw', hang']
  rw [if_pos hang, if_pos hang]
  show (1 : ℚ) + 0.02 * (wget w "wind_speed_10m" 0 * geo.cosDeg (legWindAngle geo wps w i)) ≤
    1 + 0.02 * (wget w' "wind_speed_10m" 0 * geo.cosDeg (legWindAngle geo wps w i))
  nlinarith [mul_le_mul_of_nonneg_right hss hcos]

theorem segWindFactor_tailwind_ge (geo : Geo) (wps : List Waypoint) (wd wd' : WeatherMap)
    (i : Nat) (w w' : WeatherSample)
    (hw : List.lookup ("waypoint_" ++ toString i) wd = some w)
    (hw' : List.lookup ("waypoint_" ++ toString i) wd' = some w')
    (hdir : wget w "wind_direction_10m" 0 = wget w' "wind_direction_10m" 0)
    (hang : ¬ legWindAngle geo wps w i ≤ 90)
    (hcos : 0 ≤ geo.cosDeg (legWindAngle geo wps w i - 180))
    (hss : wget w "wind_speed_10m" 0 ≤ wget w' "wind_speed_10m" 0) :
    optLE (segWindFactor geo wps wd' i) (segWindFactor geo wps wd i) := by
  have hang' : legWindAngle geo wps w' i = legWindAngle geo wps w i := by
    unfold legWindAngle
    rw [hdir]
  simp only [segWindFactor, hw, hw', hang']
  rw [if_neg hang, if_neg hang]
  show max (0.5 : ℚ)
      (1 - 0.015 * (wget w' "wind_speed_10m" 0 * geo.cosDeg (legWindAngle geo wps w i - 180))) ≤
    max (0.5 : ℚ)
      (1 - 0.015 * (wget w "wind_speed_10m" 0 * geo.cosDeg (legWindAngle geo wps w i - 180)))
  apply max_le_max (le_refl _)
  nlinarith [mul_le_mul_of_nonneg_right hss hcos]

/-- **C6.** Fuel consumption is monotonically non-decreasing in a leg's
headwind magnitude and non-increasing in its tailwind magnitude, all other
inputs fixed — here: two weather mappings that agree on every other leg and
carry the same wind direction for leg `i`, the leg classified headwind
(respectively tailwind) with the library cosine non-negative on the relevant
angle, and the wind speed increased — and the overall wind factor applied to
the base fuel is never below 0.3. -/
theorem c6_fuel_wind_monotonicity :
    (∀ (geo : Geo) (ac : Aircraft) (r : Route) (wd wd' : WeatherMap) (i : Nat)
        (w w' : WeatherSample),
      0 < ac.cruise_speed_kmh → 0 ≤ ac.fuel_consumption_rate_kg_hr → 0 ≤ r.distance →
      (∀ j, j ≠ i → j + 1 < r.waypoints.length →
        List.lookup ("waypoint_" ++ toString j) wd =
          List.lookup ("waypoint_" ++ toString j) wd') →
      List.lookup ("waypoint_" ++ toString i) wd = some w →
      List.lookup ("waypoint_" ++ toString i) wd' = some w' →
      wget w "wind_direction_10m" 0 = wget w' "wind_direction_10m" 0 →
      legWindAngle geo r.waypoints w i ≤ 90 →
      0 ≤ geo.cosDeg (legWindAngle geo r.waypoints w i) →
      wget w "wind_speed_10m" 0 ≤ wget w' "wind_speed_10m" 0 →
      (calculate_fuel_consumption geo (some ac) r wd).map Prod.snd =
          .ok (fuelValue geo ac r wd) ∧
        fuelValue geo ac r wd ≤ fuelValue geo ac r wd') ∧
    (∀ (geo : Geo) (ac : Aircraft) (r : Route) (wd wd' : WeatherMap) (i : Nat)
        (w w' : WeatherSample),
      0 < ac.cruise_speed_kmh → 0 ≤ ac.fuel_consumption_rate_kg_hr → 0 ≤ r.distance →
      (∀ j, j ≠ i → j + 1 < r.waypoints.length →
        List.lookup ("waypoint_" ++ toString j) wd =
          List.lookup ("waypoint_" ++ toString j) wd') →
      List.lookup ("waypoint_" ++ toString i) wd = some w →
      List.lookup ("waypoint_" ++ toString i) wd' = some w' →
      wget w "wind_direction_10m" 0 = wget w' "wind_direction_10m" 0 →
      ¬ legWindAngle geo r.waypoints w i ≤ 90 →
      0 ≤ geo.cosDeg (legWindAngle geo r.waypoints w i - 180) →
      wget w "wind_speed_10m" 0 ≤ wget w' "wind_speed_10m" 0 →
      fuelValue geo ac r wd' ≤ fuelValue geo ac r wd) ∧
    (∀ (geo : Geo) (ac : Aircraft) (r : Route) (wd : WeatherMap),
      ac.cruise_speed_kmh ≠ 0 →
      ∃ wfac, 0.3 ≤ wfac ∧
        calculate_fuel_consumption geo (some ac) r wd =
          .ok ({ r with fuel_consumption :=
              (r.distance / ac.cruise_speed_kmh * ac.fuel_consumption_rate_kg_hr) *
                wfac * 1 * 1 / 2 },
            (r.distance / ac.cruise_speed_kmh * ac.fuel_consumption_rate_kg_hr) *
              wfac * 1 * 1 / 2)) := by
  refine ⟨?_, ?_, ?_⟩
  · intro geo ac r wd wd' i w w' hspeed hrate hdist hoth hw hw' hdir hang hcos hss
    constructor
    · rw [fuel_ok_value geo ac r wd (ne_of_gt hspeed)]
      rfl
    · apply fuelValue_mono geo ac r wd wd' hspeed hrate hdist
      intro j hj
      by_cases hji : j = i
      · subst hji
        exact segWindFactor_headwind_le geo r.waypoints wd wd' j w w' hw hw' hdir hang hcos hss
      · rw [segWindFactor_congr geo r.waypoints wd wd' j
          (hoth j hji (by have := List.mem_range.mp hj; omega))]
        exact optLE_refl _
  · intro geo ac r wd wd' i w w' hspeed hrate hdist hoth hw hw' hdir hang hcos hss
    apply fuelValue_mono geo ac r wd' wd hspeed hrate hdist
    intro j hj
    by_cases hji : j = i
    · subst hji
      exact segWindFactor_tailwind_ge geo r.waypoints wd wd' j w w' hw hw' hdir hang hcos hss
    · rw [segWindFactor_congr geo r.waypoints wd' wd j
        (hoth j hji (by have := List.mem_range.mp hj; omega)).symm]
      exact optLE_refl _
  · intro geo ac r wd h
    exact ⟨_, le_max_left _ _, fuel_ok_value geo ac r wd h⟩

/-- **C6 witness.** The headwind part at concrete data: a two-waypoint route,
leg-0 headwind raised from speed 1 to speed 2 — fuel does not decrease, and the
success equation holds. -/
theorem c6_fuel_wind_witness :
    (calculate_fuel_consumption geoC6 (some acC6) rC6 wdC6).map Prod.snd =
        .ok (fuelValue geoC6 acC6 rC6 wdC6) ∧
      fuelValue geoC6 acC6 rC6 wdC6 ≤ fuelValue geoC6 acC6 rC6 wdC6b :=
  c6_fuel_wind_monotonicity.1 geoC6 acC6 rC6 wdC6 wdC6b 0 wC6 wC6b
    (by norm_num [acC6])
    (by norm_num [acC6])
    (by norm_num [rC6, routeNoWp])
    (by
      intro j hne hlt
      have h2 : rC6.waypoints.length = 2 := rfl
      rw [h2] at hlt
      omega)
    rfl rfl rfl
    (by
      have hl : wget wC6 "wind_direction_10m" 0 = 0 := rfl
      norm_num [legWindAngle, hl, geoC6, pymod])
    (by norm_num [geoC6])
    (by
      have h1 : wget wC6 "wind_speed_10m" 0 = 1 := rfl
      have h2 : wget wC6b "wind_speed_10m" 0 = 2 := rfl
      rw [h1, h2]
      norm_num)
